import Mathlib

/-!
# Verification of the invoicegen backend core

Shallow embedding of the core of the invoicegen backend (a multi-tenant
invoicing SaaS): the invoice financial calculations and aggregate builder
(`app/graphql/mutations/invoice.py`), the payment reconciliation mutations
(`app/graphql/mutations/payment.py`), the billing/quota service
(`app/services/billing_service.py`) and the invoice read/cache
(de)serialization helpers (`app/graphql/queries/invoice.py`).

Python floats are modelled as exact rationals (the claims under scrutiny are
arithmetic identities over the values the code computes, and the code performs
no rounding); machine-level float error is out of scope.  Database sessions
are modelled as explicit state records, SQLAlchemy queries as list lookups,
and `datetime.utcnow()` / `uuid.uuid4()` as explicit parameters.
-/

namespace InvoiceGen

/-! ## Dates and timestamps -/

/-- Calendar date, modelling Python `datetime.date`. -/
structure PyDate where
  year : Nat
  month : Nat
  day : Nat
deriving DecidableEq, Repr

/-- Naive UTC timestamp, modelling Python `datetime.datetime`. -/
structure PyDateTime where
  year : Nat
  month : Nat
  day : Nat
  hour : Nat
  minute : Nat
  second : Nat
  microsecond : Nat
deriving DecidableEq, Repr

/-- Chronological strict order on dates (lexicographic year, month, day). -/
def PyDate.before (a b : PyDate) : Bool :=
  if a.year ≠ b.year then a.year < b.year
  else if a.month ≠ b.month then a.month < b.month
  else a.day < b.day

/-- Chronological non-strict order on timestamps (lexicographic on all
components), used for the `created_at >= first_day_of_month` filter. -/
def PyDateTime.leB (a b : PyDateTime) : Bool :=
  if a.year ≠ b.year then a.year < b.year
  else if a.month ≠ b.month then a.month < b.month
  else if a.day ≠ b.day then a.day < b.day
  else if a.hour ≠ b.hour then a.hour < b.hour
  else if a.minute ≠ b.minute then a.minute < b.minute
  else if a.second ≠ b.second then a.second < b.second
  else a.microsecond ≤ b.microsecond

/-- Models `datetime.utcnow().replace(day=1, hour=0, minute=0, second=0,
microsecond=0)` from `BillingService.can_create_invoice`. -/
def firstDayOfMonth (now : PyDateTime) : PyDateTime :=
  { year := now.year, month := now.month, day := 1
    hour := 0, minute := 0, second := 0, microsecond := 0 }

/-! ## Enumerations

The string enums of `app/db/models` and `app/graphql/types`.  Each carries its
Python `.value`. -/

/-- Invoice lifecycle status (`InvoiceStatus` in `app/db/models/invoice.py`). -/
inductive InvoiceStatus where
  | draft | sent | viewed | paid | overdue | cancelled | refunded
deriving DecidableEq, Repr

/-- The `.value` of an `InvoiceStatus` member. -/
def InvoiceStatus.value : InvoiceStatus → String
  | .draft => "draft" | .sent => "sent" | .viewed => "viewed"
  | .paid => "paid" | .overdue => "overdue" | .cancelled => "cancelled"
  | .refunded => "refunded"

/-- Discount type (`DiscountType` in `app/db/models/invoice.py`). -/
inductive DiscountType where
  | percentage | fixed
deriving DecidableEq, Repr

/-- The `.value` of a `DiscountType` member. -/
def DiscountType.value : DiscountType → String
  | .percentage => "percentage" | .fixed => "fixed"

/-- Client type (`ClientType` in `app/db/models/client.py`). -/
inductive ClientType where
  | individual | company
deriving DecidableEq, Repr

/-- The `.value` of a `ClientType` member. -/
def ClientType.value : ClientType → String
  | .individual => "individual" | .company => "company"

/-- Client status (`ClientStatus` in `app/db/models/client.py`). -/
inductive ClientStatus where
  | active | inactive | blocked
deriving DecidableEq, Repr

/-- The `.value` of a `ClientStatus` member. -/
def ClientStatus.value : ClientStatus → String
  | .active => "active" | .inactive => "inactive" | .blocked => "blocked"

/-- Payment status (`PaymentStatus` in `app/graphql/types/payment.py`). -/
inductive PaymentStatus where
  | pending | completed | failed | refunded
deriving DecidableEq, Repr

/-- The `.value` of a `PaymentStatus` member. -/
def PaymentStatus.value : PaymentStatus → String
  | .pending => "pending" | .completed => "completed"
  | .failed => "failed" | .refunded => "refunded"

/-- Payment method (`PaymentMethod` in `app/graphql/types/payment.py`). -/
inductive PaymentMethod where
  | cash | check | bankTransfer | creditCard | paypal | stripe | other
deriving DecidableEq, Repr

/-- The `.value` of a `PaymentMethod` member. -/
def PaymentMethod.value : PaymentMethod → String
  | .cash => "cash" | .check => "check" | .bankTransfer => "bank_transfer"
  | .creditCard => "credit_card" | .paypal => "paypal"
  | .stripe => "stripe" | .other => "other"

/-- Modelled from the spec: the subscription plan enum `SubscriptionPlan`.
`app/services/billing_service.py` and `app/db/models/billing.py` import it
from `app.db.models.user`, where it is absent from the repository snapshot;
the spec names the tiers free/starter/pro/enterprise (the keys of
`PLAN_LIMITS`). -/
inductive SubscriptionPlan where
  | free | starter | pro | enterprise
deriving DecidableEq, Repr

/-- Modelled from the spec: the subscription status enum
`SubscriptionStatus`, imported by the billing code from
`app.db.models.user` where it is absent from the repository snapshot; the
spec lists the statuses active/trialing/past_due/canceled. -/
inductive SubscriptionStatus where
  | active | trialing | pastDue | canceled
deriving DecidableEq, Repr

/-! ## Money -/

/-- Monetary amounts: Python floats modelled as exact rationals. -/
abbrev Money := ℚ

/-! ## Database rows

Each structure carries the columns the core logic reads or writes; columns
never touched by the embedded operations (audit columns, Stripe ids, …) are
omitted. -/

/-- A `users` row.  The columns `subscription_plan` and `subscription_status`
are read by `BillingService` but absent from the `User` model in the
repository snapshot; they are modelled from the spec ("the owner's stored
`subscription_plan` (defaulting to FREE)"). -/
structure UserRow where
  id : String
  subscriptionPlan : SubscriptionPlan
  subscriptionStatus : SubscriptionStatus
deriving DecidableEq, Repr

/-- A `business_profiles` row (`app/db/models/business.py`).  The source
column `invoice_prefix` is rendered `invoicePrefix`. -/
structure BusinessRow where
  id : String
  user_id : String
  currency : String
  invoicePrefix : String
  next_invoice_number : Nat
  is_active : Bool
deriving DecidableEq, Repr

/-- A `billing_plans` row (`app/db/models/billing.py`); `none` on a limit
column means NULL (unlimited). -/
structure BillingPlanRow where
  id : String
  plan_type : SubscriptionPlan
  max_invoices_per_month : Option Nat
  max_businesses : Option Nat
  features : List String
deriving DecidableEq, Repr

/-- A `subscriptions` row (`app/db/models/billing.py`). -/
structure SubscriptionRow where
  id : String
  user_id : String
  plan_id : String
  status : SubscriptionStatus
deriving DecidableEq, Repr

/-- A `clients` row (`app/db/models/client.py`), reduced to the columns the
invoice view reads.  `created_at` and `updated_at` are `Date` columns in the
source model. -/
structure ClientRow where
  id : String
  business_id : String
  client_type : ClientType
  company_name : Option String
  first_name : Option String
  last_name : Option String
  email : String
  phone : Option String
  mobile : Option String
  website : Option String
  tax_id : Option String
  vat_number : Option String
  payment_terms : Option String
  credit_limit : Option Money
  currency : String
  language : String
  notes : Option String
  status : ClientStatus
  created_at : PyDate
  updated_at : PyDate
deriving DecidableEq, Repr

/-- An `invoices` row (`app/db/models/invoice.py`), reduced to the columns the
embedded mutations and queries touch.  `payment_terms` is kept as its string
value. -/
structure InvoiceRow where
  id : String
  business_id : String
  client_id : String
  invoice_number : String
  reference_number : Option String
  purchase_order_number : Option String
  status : InvoiceStatus
  invoice_date : PyDate
  due_date : PyDate
  payment_terms : String
  subtotal : Money
  discount_type : Option DiscountType
  discount_value : Money
  discount_amount : Money
  tax_amount : Money
  shipping_amount : Money
  total_amount : Money
  amount_paid : Money
  amount_due : Money
  currency : String
  notes : Option String
  payment_instructions : Option String
  footer_text : Option String
  is_recurring : Bool
  sent_at : Option PyDateTime
  viewed_at : Option PyDateTime
  paid_at : Option PyDateTime
  cancelled_at : Option PyDateTime
  created_by : String
  created_at : PyDateTime
  updated_at : PyDateTime
deriving DecidableEq, Repr

/-- An `invoice_items` row (`app/db/models/invoice.py`). -/
structure InvoiceItemRow where
  id : String
  invoice_id : String
  product_id : Option String
  description : String
  quantity : Money
  unit_price : Money
  unit_of_measure : String
  tax_rate : Money
  tax_amount : Money
  discount_type : Option DiscountType
  discount_value : Money
  discount_amount : Money
  line_total : Money
  sort_order : Nat
  created_at : PyDateTime
  updated_at : PyDateTime
deriving DecidableEq, Repr

/-- A `payments` row (`app/db/models/payment.py`), reduced to the columns the
payment mutations touch. -/
structure PaymentRow where
  id : String
  invoice_id : String
  payment_number : String
  payment_date : PyDate
  amount : Money
  payment_method : String
  transaction_id : Option String
  reference_number : Option String
  notes : Option String
  status : PaymentStatus
  created_by : String
  created_at : PyDateTime
  updated_at : PyDateTime
deriving DecidableEq, Repr

/-- The relational store: one list per table the core touches. -/
structure DBState where
  users : List UserRow
  businesses : List BusinessRow
  clients : List ClientRow
  plans : List BillingPlanRow
  subscriptions : List SubscriptionRow
  invoices : List InvoiceRow
  invoice_items : List InvoiceItemRow
  payments : List PaymentRow
deriving Repr

/-! ## Billing/Quota service (`app/services/billing_service.py`) -/

/-- A per-month / per-account limit: a finite bound or `float('inf')`. -/
inductive Limit where
  | fin (n : Nat)
  | inf
deriving DecidableEq, Repr

/-- The value of a `PLAN_LIMITS` entry / `get_plan_limits` result. -/
structure PlanLimits where
  max_invoices_per_month : Limit
  max_businesses : Limit
  features : List String
deriving DecidableEq, Repr

/-- The module-level `PLAN_LIMITS` table of `billing_service.py`. -/
def PLAN_LIMITS : SubscriptionPlan → PlanLimits
  | .free => { max_invoices_per_month := .fin 5, max_businesses := .fin 1
               features := ["basic_pdf"] }
  | .starter => { max_invoices_per_month := .fin 50, max_businesses := .fin 2
                  features := ["custom_branding", "reminders"] }
  | .pro => { max_invoices_per_month := .inf, max_businesses := .fin 5
              features := ["custom_branding", "reminders",
                           "recurring_invoices", "advanced_reporting"] }
  | .enterprise => { max_invoices_per_month := .inf, max_businesses := .inf
                     features := ["custom_branding", "reminders",
                                  "recurring_invoices", "advanced_reporting",
                                  "audit_logs", "priority_support"] }

/-- Python `plan.max_invoices_per_month or float('inf')`: NULL becomes
unlimited, and by Python truthiness a stored `0` also becomes unlimited. -/
def orInf : Option Nat → Limit
  | none => .inf
  | some n => if n = 0 then .inf else .fin n

/-- `BillingService.get_active_subscription`: first subscription row of the
user.  Despite its name the source filters only on `user_id` — it does not
restrict the subscription's status. -/
def get_active_subscription (db : DBState) (userId : String) :
    Option SubscriptionRow :=
  db.subscriptions.find? (fun s => s.user_id == userId)

/-- The `joinedload(Subscription.plan)` relationship: the billing plan row a
subscription points at. -/
def subscriptionPlanRow (db : DBState) (s : SubscriptionRow) :
    Option BillingPlanRow :=
  db.plans.find? (fun p => p.id == s.plan_id)

/-- `BillingService.get_plan_limits`: the subscription's plan limits whenever
a subscription row with a plan exists (no status check), else the static
`PLAN_LIMITS` fallback keyed by the user's stored plan, defaulting to FREE. -/
def get_plan_limits (db : DBState) (userId : String) : PlanLimits :=
  let fallback : PlanLimits :=
    match db.users.find? (fun u => u.id == userId) with
    | some u => PLAN_LIMITS u.subscriptionPlan
    | none => PLAN_LIMITS .free
  match get_active_subscription db userId with
  | some s =>
    match subscriptionPlanRow db s with
    | some plan =>
      { max_invoices_per_month := orInf plan.max_invoices_per_month
        max_businesses := orInf plan.max_businesses
        features := plan.features }
    | none => fallback
  | none => fallback

/-- The status resolution step of `can_create_invoice` (lines 78-81): the
subscription's status if a subscription row exists, else the user's stored
status, else CANCELED. -/
def resolvedStatus (db : DBState) (userId : String) : SubscriptionStatus :=
  match get_active_subscription db userId with
  | some s => s.status
  | none =>
    match db.users.find? (fun u => u.id == userId) with
    | some u => u.subscriptionStatus
    | none => .canceled

/-- Count of the business's invoices with `created_at >= first_day_of_month`. -/
def monthInvoiceCount (db : DBState) (businessId : String)
    (now : PyDateTime) : Nat :=
  (db.invoices.filter (fun i =>
    i.business_id == businessId
      && (firstDayOfMonth now).leB i.created_at)).length

/-- `BillingService.can_create_invoice`. -/
def can_create_invoice (db : DBState) (businessId : String)
    (now : PyDateTime) : Bool :=
  match db.businesses.find? (fun b => b.id == businessId) with
  | none => false
  | some business =>
    let userId := business.user_id
    let status := resolvedStatus db userId
    if status ≠ .active ∧ status ≠ .trialing then false
    else
      match (get_plan_limits db userId).max_invoices_per_month with
      | .inf => true
      | .fin limit => monthInvoiceCount db businessId now < limit

/-! ## Invoice mutations (`app/graphql/mutations/invoice.py`) -/

/-- Runtime outcomes of a mutation: a `raise Exception(msg)` from the source,
or a `NameError` for an undefined name. -/
inductive PyErr where
  | exception (msg : String)
  | nameError (name : String)
deriving DecidableEq, Repr

/-- The GraphQL input for one line item (`InvoiceItemInput` in
`app/graphql/types/invoice.py`).  Optional floats default to `0.0` in the
source; they are kept optional here and the truthiness tests are modelled
where the mutation performs them. -/
structure InvoiceItemInput where
  product_id : Option String := none
  description : String := ""
  quantity : Money := 1
  unit_price : Money := 0
  unit_of_measure : Option String := some "unit"
  tax_rate : Option Money := some 0
  discount_type : Option DiscountType := none
  discount_value : Option Money := some 0
deriving DecidableEq, Repr

/-- `CreateInvoiceInput` (`app/graphql/types/invoice.py`).  The `.date()`
call the mutation performs on the two date inputs is modelled as the identity
on the carried calendar date (the scalar wiring is framework code, out of
scope). -/
structure CreateInvoiceInput where
  business_id : String
  client_id : String
  invoice_date : PyDate
  due_date : PyDate
  payment_terms : String
  items : List InvoiceItemInput
  discount_type : Option DiscountType := none
  discount_value : Option Money := some 0
  shipping_amount : Option Money := some 0
  notes : Option String := none
  payment_instructions : Option String := none
deriving DecidableEq, Repr

/-- `UpdateInvoiceInput` (`app/graphql/types/invoice.py`). -/
structure UpdateInvoiceInput where
  status : Option InvoiceStatus := none
  due_date : Option PyDate := none
  notes : Option String := none
  payment_instructions : Option String := none
deriving DecidableEq, Repr

/-- Python truthiness of an optional float (`None` and `0.0` are falsy). -/
def moneyTruthy : Option Money → Bool
  | none => false
  | some v => v != 0

/-- `item_subtotal = item_input.quantity * item_input.unit_price`. -/
def lineSubtotal (it : InvoiceItemInput) : Money :=
  it.quantity * it.unit_price

/-- The per-line discount of `create_invoice` (computed identically at lines
44-50 and 99-105): nonzero only when both `discount_type` and
`discount_value` are truthy; a percentage is taken of the line subtotal,
otherwise the raw value is used. -/
def lineDiscount (it : InvoiceItemInput) : Money :=
  if it.discount_type.isSome ∧ moneyTruthy it.discount_value then
    match it.discount_type, it.discount_value with
    | some .percentage, some v => lineSubtotal it * (v / 100)
    | _, some v => v
    | _, none => 0
  else 0

/-- `item_after_discount = item_subtotal - item_discount`. -/
def lineAfterDiscount (it : InvoiceItemInput) : Money :=
  lineSubtotal it - lineDiscount it

/-- `item_tax = item_after_discount * ((item_input.tax_rate or 0.0) / 100)`. -/
def lineTax (it : InvoiceItemInput) : Money :=
  lineAfterDiscount it * (it.tax_rate.getD 0 / 100)

/-- `line_total = item_after_discount + item_tax` (line 109). -/
def lineTotalAmount (it : InvoiceItemInput) : Money :=
  lineAfterDiscount it + lineTax it

/-- The document-level discount of `create_invoice` (lines 58-63), the same
percentage/fixed rule applied to the document subtotal. -/
def documentDiscount (input : CreateInvoiceInput) (subtotal : Money) : Money :=
  if input.discount_type.isSome ∧ moneyTruthy input.discount_value then
    match input.discount_type, input.discount_value with
    | some .percentage, some v => subtotal * (v / 100)
    | _, some v => v
    | _, none => 0
  else 0

/-- Python `f"{n:05d}"`: decimal digits zero-padded on the left to width 5. -/
def pad5 (n : Nat) : String :=
  let ds := Nat.toDigits 10 n
  ⟨List.replicate (5 - ds.length) '0' ++ ds⟩

/-- Python `s or d` on an optional string: `None` and `""` fall back to `d`
(used for `item_input.unit_of_measure or "unit"`). -/
def strOrDefault (s : Option String) (d : String) : String :=
  match s with
  | none => d
  | some s => if s = "" then d else s

/-- Names imported or defined at module level in
`app/graphql/mutations/invoice.py` (its lines 1-11). -/
def invoiceModuleScope : List String :=
  ["strawberry", "Session", "datetime", "uuid",
   "Invoice", "CreateInvoiceInput", "UpdateInvoiceInput",
   "InvoiceModel", "InvoiceItemModel", "BusinessProfile", "BillingService",
   "InvoiceMutation"]

/-- Local variables bound in `create_invoice` before its return statement. -/
def createInvoiceLocals : List String :=
  ["self", "info", "input", "db", "user", "business", "invoice_number",
   "subtotal", "tax_amount", "item_input", "item_subtotal", "item_discount",
   "item_after_discount", "item_tax", "discount_amount", "total_amount",
   "invoice", "idx", "line_total", "item"]

/-- Python builtins referenced by the return expression of `create_invoice`. -/
def pythonBuiltins : List String := ["str"]

/-- Free names referenced by the return expression of `create_invoice`
(lines 134-187), in Python's left-to-right keyword-argument evaluation
order. -/
def createInvoiceReturnNames : List String :=
  ["strawberry", "str", "invoice", "Client", "client"]

/-- The first name of the return expression that resolves neither in the
function's local scope, nor in the module scope, nor among builtins; its
lookup raises `NameError` at runtime. -/
def createInvoiceUnresolvedName : Option String :=
  createInvoiceReturnNames.find? (fun n =>
    !(createInvoiceLocals.contains n || invoiceModuleScope.contains n
      || pythonBuiltins.contains n))

/-- The `InvoiceModel(...)` row built at lines 67-91. -/
def builtInvoiceRow (input : CreateInvoiceInput) (business : BusinessRow)
    (userId invoiceId invoiceNumber : String)
    (subtotal discountAmount taxAmount totalAmount : Money)
    (now : PyDateTime) : InvoiceRow :=
  { id := invoiceId
    business_id := input.business_id
    client_id := input.client_id
    invoice_number := invoiceNumber
    reference_number := none
    purchase_order_number := none
    status := .draft
    invoice_date := input.invoice_date
    due_date := input.due_date
    payment_terms := input.payment_terms
    subtotal := subtotal
    discount_type := input.discount_type
    discount_value := input.discount_value.getD 0
    discount_amount := discountAmount
    tax_amount := taxAmount
    shipping_amount := input.shipping_amount.getD 0
    total_amount := totalAmount
    amount_paid := 0
    amount_due := totalAmount
    currency := business.currency
    notes := input.notes
    payment_instructions := input.payment_instructions
    footer_text := none
    is_recurring := false
    sent_at := none
    viewed_at := none
    paid_at := none
    cancelled_at := none
    created_by := userId
    created_at := now
    updated_at := now }

/-- One `InvoiceItemModel(...)` row built at lines 111-128. -/
def builtItemRow (invoiceId itemId : String) (idx : Nat)
    (it : InvoiceItemInput) (now : PyDateTime) : InvoiceItemRow :=
  { id := itemId
    invoice_id := invoiceId
    product_id := it.product_id
    description := it.description
    quantity := it.quantity
    unit_price := it.unit_price
    unit_of_measure := strOrDefault it.unit_of_measure "unit"
    tax_rate := it.tax_rate.getD 0
    tax_amount := lineTax it
    discount_type := it.discount_type
    discount_value := it.discount_value.getD 0
    discount_amount := lineDiscount it
    line_total := lineTotalAmount it
    sort_order := idx
    created_at := now
    updated_at := now }

/-- `InvoiceMutation.create_invoice`.  `currentUser` is the authenticated
user (or `none`); `invoiceId` and `itemIds` stand for the generated UUIDs and
`now` for `datetime.utcnow()`.  The function returns the post-commit store
together with the runtime outcome.  After the commit the return expression
references `Client` and `client`, neither of which is bound anywhere in the
module, so the success path ends in a `NameError` — with the writes already
committed. -/
def create_invoice (db : DBState) (currentUser : Option UserRow)
    (input : CreateInvoiceInput) (invoiceId : String) (itemIds : Nat → String)
    (now : PyDateTime) : DBState × Except PyErr Unit :=
  match currentUser with
  | none => (db, .error (.exception "Not authenticated"))
  | some user =>
    if !(can_create_invoice db input.business_id now) then
      (db, .error (.exception
        "Monthly invoice limit reached for your plan. Please upgrade to create more invoices."))
    else
      match db.businesses.find?
          (fun b => b.id == input.business_id && b.user_id == user.id) with
      | none => (db, .error (.exception "Business not found"))
      | some business =>
        let invoiceNumber :=
          business.invoicePrefix ++ "-" ++ pad5 business.next_invoice_number
        let subtotal := (input.items.map lineSubtotal).sum
        let taxAmount := (input.items.map lineTax).sum
        let discountAmount := documentDiscount input subtotal
        let totalAmount :=
          subtotal - discountAmount + taxAmount + input.shipping_amount.getD 0
        let inv := builtInvoiceRow input business user.id invoiceId
          invoiceNumber subtotal discountAmount taxAmount totalAmount now
        let items := input.items.enum.map
          (fun p => builtItemRow invoiceId (itemIds p.1) p.1 p.2 now)
        let db2 : DBState :=
          { db with
            businesses := db.businesses.map (fun b =>
              if b.id == business.id then
                { b with next_invoice_number := b.next_invoice_number + 1 }
              else b)
            invoices := db.invoices ++ [inv]
            invoice_items := db.invoice_items ++ items }
        match createInvoiceUnresolvedName with
        | some n => (db2, .error (.nameError n))
        | none => (db2, .ok ())

/-- An invoice joined with its business and filtered on ownership:
`db.query(Invoice).join(BusinessProfile).filter(Invoice.id == id,
BusinessProfile.user_id == user.id).first()`. -/
def ownedInvoice (db : DBState) (userId invoiceId : String) :
    Option InvoiceRow :=
  db.invoices.find? (fun i =>
    i.id == invoiceId
      && (db.businesses.find? (fun b => b.id == i.business_id)).any
           (fun b => b.user_id == userId))

/-- Replace an invoice row in the store by id (the ORM flush of an in-place
mutation of the loaded row). -/
def putInvoice (db : DBState) (inv : InvoiceRow) : DBState :=
  { db with invoices := db.invoices.map (fun i => if i.id == inv.id then inv else i) }

/-- `InvoiceMutation.update_invoice`: each provided field overwrites the row,
the status unconditionally (no transition guard). -/
def update_invoice (db : DBState) (currentUser : Option UserRow)
    (invoiceId : String) (input : UpdateInvoiceInput) (now : PyDateTime) :
    DBState × Except PyErr InvoiceRow :=
  match currentUser with
  | none => (db, .error (.exception "Not authenticated"))
  | some user =>
    match ownedInvoice db user.id invoiceId with
    | none => (db, .error (.exception "Invoice not found"))
    | some inv =>
      let inv := { inv with status := input.status.getD inv.status }
      let inv := { inv with due_date := input.due_date.getD inv.due_date }
      let inv := { inv with notes :=
        match input.notes with | some n => some n | none => inv.notes }
      let inv := { inv with payment_instructions :=
        match input.payment_instructions with
        | some p => some p | none => inv.payment_instructions }
      let inv := { inv with updated_at := now }
      (putInvoice db inv, .ok inv)

/-- `InvoiceMutation.send_invoice`: unconditionally sets status `sent` and
stamps `sent_at`. -/
def send_invoice (db : DBState) (currentUser : Option UserRow)
    (invoiceId : String) (now : PyDateTime) : DBState × Except PyErr Bool :=
  match currentUser with
  | none => (db, .error (.exception "Not authenticated"))
  | some user =>
    match ownedInvoice db user.id invoiceId with
    | none => (db, .error (.exception "Invoice not found"))
    | some inv =>
      let inv := { inv with status := .sent, sent_at := some now
                            updated_at := now }
      (putInvoice db inv, .ok true)

/-- `InvoiceMutation.mark_invoice_as_paid`: unconditionally sets status
`paid`, stamps `paid_at`, and forces `amount_paid = total_amount`,
`amount_due = 0`. -/
def mark_invoice_as_paid (db : DBState) (currentUser : Option UserRow)
    (invoiceId : String) (now : PyDateTime) : DBState × Except PyErr Bool :=
  match currentUser with
  | none => (db, .error (.exception "Not authenticated"))
  | some user =>
    match ownedInvoice db user.id invoiceId with
    | none => (db, .error (.exception "Invoice not found"))
    | some inv =>
      let inv := { inv with status := .paid, paid_at := some now
                            amount_paid := inv.total_amount, amount_due := 0
                            updated_at := now }
      (putInvoice db inv, .ok true)

/-- `InvoiceMutation.cancel_invoice`: unconditionally sets status `cancelled`
and stamps `cancelled_at`. -/
def cancel_invoice (db : DBState) (currentUser : Option UserRow)
    (invoiceId : String) (now : PyDateTime) : DBState × Except PyErr Bool :=
  match currentUser with
  | none => (db, .error (.exception "Not authenticated"))
  | some user =>
    match ownedInvoice db user.id invoiceId with
    | none => (db, .error (.exception "Invoice not found"))
    | some inv =>
      let inv := { inv with status := .cancelled, cancelled_at := some now
                            updated_at := now }
      (putInvoice db inv, .ok true)

/-! ## Payment mutations (`app/graphql/mutations/payment.py`) -/

/-- `CreatePaymentInput` (`app/graphql/types/payment.py`). -/
structure CreatePaymentInput where
  invoice_id : String
  payment_date : PyDate
  amount : Money
  payment_method : PaymentMethod
  transaction_id : Option String := none
  reference_number : Option String := none
  notes : Option String := none
deriving DecidableEq, Repr

/-- `UpdatePaymentInput` (`app/graphql/types/payment.py`). -/
structure UpdatePaymentInput where
  payment_date : Option PyDate := none
  amount : Option Money := none
  payment_method : Option PaymentMethod := none
  transaction_id : Option String := none
  reference_number : Option String := none
  notes : Option String := none
  status : Option PaymentStatus := none
deriving DecidableEq, Repr

/-- A payment joined through its invoice and business and filtered on
ownership (the three-table join of `update_payment` / `delete_payment`). -/
def ownedPayment (db : DBState) (userId paymentId : String) :
    Option PaymentRow :=
  db.payments.find? (fun p =>
    p.id == paymentId
      && (db.invoices.find? (fun i => i.id == p.invoice_id)).any (fun i =>
           (db.businesses.find? (fun b => b.id == i.business_id)).any
             (fun b => b.user_id == userId)))

/-- Replace a payment row in the store by id. -/
def putPayment (db : DBState) (p : PaymentRow) : DBState :=
  { db with payments := db.payments.map (fun q => if q.id == p.id then p else q) }

/-- The invoice update of `create_payment` (lines 52-59): add the amount,
recompute `amount_due`, and mark the invoice paid exactly when the recomputed
`amount_due <= 0`. -/
def applyPaymentToInvoice (inv : InvoiceRow) (amount : Money)
    (now : PyDateTime) : InvoiceRow :=
  let inv := { inv with amount_paid := inv.amount_paid + amount }
  let inv := { inv with amount_due := inv.total_amount - inv.amount_paid }
  let inv :=
    if inv.amount_due ≤ 0 then
      { inv with status := .paid, paid_at := some now }
    else inv
  { inv with updated_at := now }

/-- `PaymentMutation.create_payment`.  `paymentId` and `paymentNumber` stand
for the generated UUID and `PAY-...` number, `now` for `datetime.utcnow()`. -/
def create_payment (db : DBState) (currentUser : Option UserRow)
    (input : CreatePaymentInput) (paymentId paymentNumber : String)
    (now : PyDateTime) : DBState × Except PyErr PaymentRow :=
  match currentUser with
  | none => (db, .error (.exception "Not authenticated"))
  | some user =>
    match ownedInvoice db user.id input.invoice_id with
    | none => (db, .error (.exception "Invoice not found"))
    | some inv =>
      let payment : PaymentRow :=
        { id := paymentId
          invoice_id := input.invoice_id
          payment_number := paymentNumber
          payment_date := input.payment_date
          amount := input.amount
          payment_method := input.payment_method.value
          transaction_id := input.transaction_id
          reference_number := input.reference_number
          notes := input.notes
          status := .completed
          created_by := user.id
          created_at := now
          updated_at := now }
      let inv2 := applyPaymentToInvoice inv input.amount now
      let db2 := putInvoice { db with payments := db.payments ++ [payment] } inv2
      (db2, .ok payment)

/-- The invoice update of `update_payment` (lines 126-136), reached when the
input's amount is provided and differs from the stored one: shift
`amount_paid` by the difference, recompute `amount_due`; mark paid when it is
`<= 0`, else revert a paid invoice to `sent` and clear `paid_at`. -/
def amendPaymentOnInvoice (inv : InvoiceRow) (oldAmount newAmount : Money)
    (now : PyDateTime) : InvoiceRow :=
  let inv := { inv with amount_paid := inv.amount_paid - oldAmount + newAmount }
  let inv := { inv with amount_due := inv.total_amount - inv.amount_paid }
  let inv :=
    if inv.amount_due ≤ 0 then
      { inv with status := .paid, paid_at := some now }
    else if inv.status = .paid then
      { inv with status := .sent, paid_at := none }
    else inv
  { inv with updated_at := now }

/-- `PaymentMutation.update_payment`. -/
def update_payment (db : DBState) (currentUser : Option UserRow)
    (paymentId : String) (input : UpdatePaymentInput) (now : PyDateTime) :
    DBState × Except PyErr PaymentRow :=
  match currentUser with
  | none => (db, .error (.exception "Not authenticated"))
  | some user =>
    match ownedPayment db user.id paymentId with
    | none => (db, .error (.exception "Payment not found"))
    | some payment =>
      let oldAmount := payment.amount
      let payment := { payment with
        payment_date := input.payment_date.getD payment.payment_date }
      let payment := { payment with amount := input.amount.getD payment.amount }
      let payment := { payment with
        payment_method := (match input.payment_method with
          | some m => m.value | none => payment.payment_method) }
      let payment := { payment with
        transaction_id := (match input.transaction_id with
          | some t => some t | none => payment.transaction_id) }
      let payment := { payment with
        reference_number := (match input.reference_number with
          | some r => some r | none => payment.reference_number) }
      let payment := { payment with
        notes := (match input.notes with
          | some n => some n | none => payment.notes) }
      let payment := { payment with status := input.status.getD payment.status }
      let payment := { payment with updated_at := now }
      let db2 :=
        if input.amount.isSome ∧ input.amount ≠ some oldAmount then
          match db.invoices.find? (fun i => i.id == payment.invoice_id) with
          | some inv =>
            putInvoice db (amendPaymentOnInvoice inv oldAmount payment.amount now)
          | none => db
        else db
      (putPayment db2 payment, .ok payment)

/-- The invoice update of `delete_payment` (lines 178-185): subtract the
amount, recompute `amount_due`, and unconditionally revert a paid invoice to
`sent` with `paid_at` cleared. -/
def removePaymentFromInvoice (inv : InvoiceRow) (amount : Money)
    (now : PyDateTime) : InvoiceRow :=
  let inv := { inv with amount_paid := inv.amount_paid - amount }
  let inv := { inv with amount_due := inv.total_amount - inv.amount_paid }
  let inv :=
    if inv.status = .paid then
      { inv with status := .sent, paid_at := none }
    else inv
  { inv with updated_at := now }

/-- `PaymentMutation.delete_payment`. -/
def delete_payment (db : DBState) (currentUser : Option UserRow)
    (paymentId : String) (now : PyDateTime) : DBState × Except PyErr Bool :=
  match currentUser with
  | none => (db, .error (.exception "Not authenticated"))
  | some user =>
    match ownedPayment db user.id paymentId with
    | none => (db, .error (.exception "Payment not found"))
    | some payment =>
      let db2 :=
        match db.invoices.find? (fun i => i.id == payment.invoice_id) with
        | some inv =>
          putInvoice db (removePaymentFromInvoice inv payment.amount now)
        | none => db
      let db3 := { db2 with
        payments := db2.payments.filter (fun q => !(q.id == payment.id)) }
      (db3, .ok true)

/-! ## ISO-8601 formatting and parsing

Models `datetime.date.isoformat` / `datetime.datetime.isoformat` and the
canonical fragment of `date.fromisoformat` / `datetime.fromisoformat` used by
`parse_iso_dates` in `app/graphql/queries/invoice.py`.  Strings are handled
as their character lists. -/

/-- Decimal digit character. -/
def digitChar : Nat → Char
  | 0 => '0' | 1 => '1' | 2 => '2' | 3 => '3' | 4 => '4'
  | 5 => '5' | 6 => '6' | 7 => '7' | 8 => '8' | _ => '9'

/-- Decimal value of a digit character (code points 48-57), `none` for a
non-digit. -/
def charDigit? (c : Char) : Option Nat :=
  if 48 ≤ c.toNat ∧ c.toNat ≤ 57 then some (c.toNat - 48) else none

/-- Two-digit zero-padded field (`%02d` for values below 100). -/
def pad2c (n : Nat) : List Char := [digitChar (n / 10), digitChar (n % 10)]

/-- Four-digit zero-padded field (`%04d` for values below 10000). -/
def pad4c (n : Nat) : List Char :=
  [digitChar (n / 1000), digitChar (n / 100 % 10),
   digitChar (n / 10 % 10), digitChar (n % 10)]

/-- Six-digit zero-padded field (`%06d` for values below 1000000). -/
def pad6c (n : Nat) : List Char :=
  [digitChar (n / 100000), digitChar (n / 10000 % 10),
   digitChar (n / 1000 % 10), digitChar (n / 100 % 10),
   digitChar (n / 10 % 10), digitChar (n % 10)]

/-- Parse two digit characters. -/
def parse2 (a b : Char) : Option Nat :=
  match charDigit? a, charDigit? b with
  | some x, some y => some (10 * x + y)
  | _, _ => none

/-- Parse four digit characters. -/
def parse4 (a b c d : Char) : Option Nat :=
  match charDigit? a, charDigit? b, charDigit? c, charDigit? d with
  | some x, some y, some z, some w =>
    some (1000 * x + 100 * y + 10 * z + w)
  | _, _, _, _ => none

/-- Parse six digit characters. -/
def parse6 (a b c d e f : Char) : Option Nat :=
  match charDigit? a, charDigit? b, charDigit? c,
        charDigit? d, charDigit? e, charDigit? f with
  | some x, some y, some z, some w, some v, some u =>
    some (100000 * x + 10000 * y + 1000 * z + 100 * w + 10 * v + u)
  | _, _, _, _, _, _ => none

/-- `date.isoformat()`: `YYYY-MM-DD`. -/
def isoDateChars (d : PyDate) : List Char :=
  pad4c d.year ++ '-' :: pad2c d.month ++ '-' :: pad2c d.day

/-- `date.isoformat()` as a string. -/
def isoDate (d : PyDate) : String := ⟨isoDateChars d⟩

/-- `datetime.isoformat()`: `YYYY-MM-DDTHH:MM:SS`, with `.ffffff` appended
exactly when the microsecond field is nonzero. -/
def isoDateTimeChars (t : PyDateTime) : List Char :=
  pad4c t.year ++ '-' :: pad2c t.month ++ '-' :: pad2c t.day
    ++ 'T' :: pad2c t.hour ++ ':' :: pad2c t.minute ++ ':' :: pad2c t.second
    ++ (if t.microsecond = 0 then [] else '.' :: pad6c t.microsecond)

/-- `datetime.isoformat()` as a string. -/
def isoDateTime (t : PyDateTime) : String := ⟨isoDateTimeChars t⟩

/-- The `'T' in value` test of `parse_iso_dates`. -/
def containsT (s : String) : Bool := s.data.any (fun c => c == 'T')

/-- `date.fromisoformat` on the canonical `YYYY-MM-DD` layout, `none` (a
`ValueError`) for any other shape, non-digit characters or out-of-range
month/day.  Month-length–specific day validation is approximated by the
bound 31. -/
def parseIsoDate (s : String) : Option PyDate :=
  match s.data with
  | [y1, y2, y3, y4, '-', m1, m2, '-', d1, d2] =>
    match parse4 y1 y2 y3 y4, parse2 m1 m2, parse2 d1 d2 with
    | some y, some mo, some dd =>
      if 1 ≤ mo ∧ mo ≤ 12 ∧ 1 ≤ dd ∧ dd ≤ 31 then
        some { year := y, month := mo, day := dd }
      else none
    | _, _, _ => none
  | _ => none

/-- `datetime.fromisoformat` on the two canonical layouts emitted by
`isoformat()` (with and without microseconds), `none` (a `ValueError`)
otherwise. -/
def parseIsoDateTime (s : String) : Option PyDateTime :=
  match s.data with
  | [y1, y2, y3, y4, '-', m1, m2, '-', d1, d2, 'T',
     a1, a2, ':', b1, b2, ':', c1, c2] =>
    match parse4 y1 y2 y3 y4, parse2 m1 m2, parse2 d1 d2,
          parse2 a1 a2, parse2 b1 b2, parse2 c1 c2 with
    | some y, some mo, some dd, some hh, some mi, some ss =>
      if 1 ≤ mo ∧ mo ≤ 12 ∧ 1 ≤ dd ∧ dd ≤ 31
          ∧ hh ≤ 23 ∧ mi ≤ 59 ∧ ss ≤ 59 then
        some { year := y, month := mo, day := dd
               hour := hh, minute := mi, second := ss, microsecond := 0 }
      else none
    | _, _, _, _, _, _ => none
  | [y1, y2, y3, y4, '-', m1, m2, '-', d1, d2, 'T',
     a1, a2, ':', b1, b2, ':', c1, c2, '.', u1, u2, u3, u4, u5, u6] =>
    match parse4 y1 y2 y3 y4, parse2 m1 m2, parse2 d1 d2,
          parse2 a1 a2, parse2 b1 b2, parse2 c1 c2,
          parse6 u1 u2 u3 u4 u5 u6 with
    | some y, some mo, some dd, some hh, some mi, some ss, some us =>
      if 1 ≤ mo ∧ mo ≤ 12 ∧ 1 ≤ dd ∧ dd ≤ 31
          ∧ hh ≤ 23 ∧ mi ≤ 59 ∧ ss ≤ 59 then
        some { year := y, month := mo, day := dd
               hour := hh, minute := mi, second := ss, microsecond := us }
      else none
    | _, _, _, _, _, _, _ => none
  | _ => none

/-- Dates representable by `isoformat()`'s fixed-width layout. -/
def ValidDate (d : PyDate) : Prop :=
  d.year < 10000 ∧ 1 ≤ d.month ∧ d.month ≤ 12 ∧ 1 ≤ d.day ∧ d.day ≤ 31

/-- Timestamps representable by `isoformat()`'s fixed-width layout. -/
def ValidDateTime (t : PyDateTime) : Prop :=
  t.year < 10000 ∧ 1 ≤ t.month ∧ t.month ≤ 12 ∧ 1 ≤ t.day ∧ t.day ≤ 31
    ∧ t.hour ≤ 23 ∧ t.minute ≤ 59 ∧ t.second ≤ 59 ∧ t.microsecond < 1000000

instance (d : PyDate) : Decidable (ValidDate d) := by
  unfold ValidDate; infer_instance

instance (t : PyDateTime) : Decidable (ValidDateTime t) := by
  unfold ValidDateTime; infer_instance

/-! ## Invoice view objects and the cache round trip
(`app/graphql/queries/invoice.py`) -/

/-- A Python scalar as it occurs in the invoice view objects: `None`,
strings, floats, booleans, dates, datetimes, and string-enum members
(carrying their class name and `.value`). -/
inductive PyScalar where
  | none
  | str (s : String)
  | num (q : ℚ)
  | boolean (b : Bool)
  | date (d : PyDate)
  | datetime (t : PyDateTime)
  | enum (cls : String) (v : String)
deriving DecidableEq, Repr

/-- A field of an invoice view: a scalar, or the nested client object /
dict (whose own fields are scalars). -/
inductive PyField where
  | scalar (v : PyScalar)
  | dict (fields : List (String × PyScalar))
deriving DecidableEq, Repr

/-- An invoice view object, identified with its field dictionary
(`inv.__dict__`). -/
abbrev PyDict := List (String × PyField)

/-- Effect of `json.dumps(..., default=json_serial)` followed by
`json.loads` on one scalar: a date or datetime becomes its `isoformat()`
string and an enum member its `.value` (the branches of `json_serial`);
JSON-native values come back unchanged. -/
def dumpLoadScalar : PyScalar → PyScalar
  | .date d => .str (isoDate d)
  | .datetime t => .str (isoDateTime t)
  | .enum _ v => .str v
  | v => v

/-- Effect of the dump/load round trip on one field: a nested object is
serialized through its `__dict__` (the `hasattr(obj, "__dict__")` branch of
`json_serial`) and loads back as a plain dict of round-tripped scalars. -/
def dumpLoadField : PyField → PyField
  | .scalar v => .scalar (dumpLoadScalar v)
  | .dict fs => .dict (fs.map (fun p => (p.1, dumpLoadScalar p.2)))

/-- Effect of the dump/load round trip on a whole view object. -/
def dumpLoadDict (d : PyDict) : PyDict :=
  d.map (fun p => (p.1, dumpLoadField p.2))

/-- The `date_fields` list of `parse_iso_dates` (lines 35-38). -/
def date_fields : List String :=
  ["invoice_date", "due_date", "sent_at", "viewed_at",
   "paid_at", "cancelled_at", "created_at", "updated_at"]

/-- Dictionary lookup (`parsed_item.get(field)`). -/
def dictGet (d : PyDict) (k : String) : Option PyField :=
  (d.find? (fun p => p.1 == k)).map (fun p => p.2)

/-- Dictionary update of an existing key (`parsed_item[field] = ...`). -/
def dictSet (d : PyDict) (k : String) (v : PyField) : PyDict :=
  d.map (fun p => if p.1 == k then (p.1, v) else p)

/-- The per-field conversion of `parse_iso_dates` (lines 44-55): a truthy
string is parsed as a datetime when it contains `'T'`, as a date otherwise;
a `ValueError` sets the field to `None`; anything else is left alone. -/
def parseDateFieldValue (v : PyField) : PyField :=
  match v with
  | .scalar (.str s) =>
    if s ≠ "" then
      if containsT s then
        match parseIsoDateTime s with
        | some t => .scalar (.datetime t)
        | Option.none => .scalar .none
      else
        match parseIsoDate s with
        | some d => .scalar (.date d)
        | Option.none => .scalar .none
    else v
  | v => v

/-- The per-field conversion for the nested client dict (lines 60-69):
identical, except that a `ValueError` leaves the string unchanged
(`except ValueError: pass`). -/
def parseClientDateValue (v : PyScalar) : PyScalar :=
  match v with
  | .str s =>
    if s ≠ "" then
      if containsT s then
        match parseIsoDateTime s with
        | some t => .datetime t
        | Option.none => .str s
      else
        match parseIsoDate s with
        | some d => .date d
        | Option.none => .str s
    else v
  | v => v

/-- The client date fields touched by `parse_iso_dates` (line 60). -/
def clientDateFields : List String := ["created_at", "updated_at"]

/-- `parse_iso_dates` applied to one list entry: convert every invoice date
field, then — when a `client` sub-dict is present — its two date fields. -/
def parseItemDates (item : PyDict) : PyDict :=
  let parsed := date_fields.foldl (fun acc f =>
    match dictGet acc f with
    | some v => dictSet acc f (parseDateFieldValue v)
    | Option.none => acc) item
  match dictGet parsed "client" with
  | some (.dict cd) =>
    let cd := clientDateFields.foldl (fun acc f =>
      acc.map (fun p =>
        if p.1 == f then (p.1, parseClientDateValue p.2) else p)) cd
    dictSet parsed "client" (.dict cd)
  | _ => parsed

/-- `parse_iso_dates` (lines 31-73). -/
def parse_iso_dates (dataList : List PyDict) : List PyDict :=
  dataList.map parseItemDates

/-- Lift an optional string into a scalar. -/
def optStr : Option String → PyScalar
  | Option.none => .none
  | some s => .str s

/-- Lift an optional float into a scalar. -/
def optNum : Option Money → PyScalar
  | Option.none => .none
  | some q => .num q

/-- Lift an optional datetime into a scalar. -/
def optDateTime : Option PyDateTime → PyScalar
  | Option.none => .none
  | some t => .datetime t

/-- Lift the nullable `discount_type` enum column into a scalar. -/
def optDiscount : Option DiscountType → PyScalar
  | Option.none => .none
  | some dt => .enum "DiscountType" dt.value

/-- The nested client view built by `get_client_from_map` (lines 220-241),
as the dict of its keyword arguments in source order.  Enum-typed columns
arrive from the ORM as string-enum members. -/
def clientViewDict (c : ClientRow) : List (String × PyScalar) :=
  [("id", .str c.id),
   ("business_id", .str c.business_id),
   ("first_name", optStr c.first_name),
   ("last_name", optStr c.last_name),
   ("status", .enum "ClientStatus" c.status.value),
   ("phone", optStr c.phone),
   ("email", .str c.email),
   ("notes", optStr c.notes),
   ("company_name", optStr c.company_name),
   ("created_at", .date c.created_at),
   ("updated_at", .date c.updated_at),
   ("client_type", .enum "ClientType" c.client_type.value),
   ("mobile", optStr c.mobile),
   ("website", optStr c.website),
   ("tax_id", optStr c.tax_id),
   ("vat_number", optStr c.vat_number),
   ("payment_terms", optStr c.payment_terms),
   ("credit_limit", optNum c.credit_limit),
   ("currency", .str c.currency),
   ("language", .str c.language)]

/-- One freshly computed invoice view of the `invoices` listing (the
`Invoice(...)` construction at lines 243-275), as the dict of its keyword
arguments in source order.  `client` is the nested client view or `None`
when the referenced client is absent from the batch map.  (The declared
strawberry `Invoice` type has no `client` field, so the constructor call as
written would reject the keyword; the view is modelled as the field dict the
construction site supplies.) -/
def freshInvoiceView (inv : InvoiceRow) (client : Option ClientRow) : PyDict :=
  [("id", .scalar (.str inv.id)),
   ("business_id", .scalar (.str inv.business_id)),
   ("client_id", .scalar (.str inv.client_id)),
   ("invoice_number", .scalar (.str inv.invoice_number)),
   ("client", match client with
     | some c => .dict (clientViewDict c)
     | Option.none => .scalar .none),
   ("reference_number", .scalar (optStr inv.reference_number)),
   ("purchase_order_number", .scalar (optStr inv.purchase_order_number)),
   ("status", .scalar (.enum "InvoiceStatus" inv.status.value)),
   ("invoice_date", .scalar (.date inv.invoice_date)),
   ("due_date", .scalar (.date inv.due_date)),
   ("payment_terms", .scalar (.str inv.payment_terms)),
   ("subtotal", .scalar (.num inv.subtotal)),
   ("discount_type", .scalar (optDiscount inv.discount_type)),
   ("discount_value", .scalar (.num inv.discount_value)),
   ("discount_amount", .scalar (.num inv.discount_amount)),
   ("tax_amount", .scalar (.num inv.tax_amount)),
   ("shipping_amount", .scalar (.num inv.shipping_amount)),
   ("total_amount", .scalar (.num inv.total_amount)),
   ("amount_paid", .scalar (.num inv.amount_paid)),
   ("amount_due", .scalar (.num inv.amount_due)),
   ("currency", .scalar (.str inv.currency)),
   ("notes", .scalar (optStr inv.notes)),
   ("payment_instructions", .scalar (optStr inv.payment_instructions)),
   ("footer_text", .scalar (optStr inv.footer_text)),
   ("is_recurring", .scalar (.boolean inv.is_recurring)),
   ("sent_at", .scalar (optDateTime inv.sent_at)),
   ("viewed_at", .scalar (optDateTime inv.viewed_at)),
   ("paid_at", .scalar (optDateTime inv.paid_at)),
   ("cancelled_at", .scalar (optDateTime inv.cancelled_at)),
   ("created_at", .scalar (.datetime inv.created_at)),
   ("updated_at", .scalar (.datetime inv.updated_at))]

/-- The cache hit path applied to a previously stored listing (lines
178-191): `json.loads` of the `json.dumps` payload, then `parse_iso_dates`,
then the `Client(**...)` / `Invoice(**data)` reconstruction — which carries
exactly the dict's fields, so views stay represented as dicts. -/
def cachedListingViews (fresh : List PyDict) : List PyDict :=
  parse_iso_dates (fresh.map dumpLoadDict)

/-- Degrade a scalar the way the JSON round trip degrades enum members:
to their plain `.value` string.  All other scalars are unchanged. -/
def stripEnumScalar : PyScalar → PyScalar
  | .enum _ v => .str v
  | v => v

/-- Degrade a field's enum members to their value strings. -/
def stripEnumField : PyField → PyField
  | .scalar v => .scalar (stripEnumScalar v)
  | .dict fs => .dict (fs.map (fun p => (p.1, stripEnumScalar p.2)))

/-- Degrade a view's enum members to their value strings. -/
def stripEnumView (d : PyDict) : PyDict :=
  d.map (fun p => (p.1, stripEnumField p.2))

/-! ## Claim-side formulas

Second definitions following the claims' wording, to be compared with the
code-side computation. -/

/-- The claims' document subtotal: the sum over all line items of
`quantity * unit_price` (gross, before per-line discount and tax). -/
def claimSubtotal (items : List InvoiceItemInput) : Money :=
  (items.map (fun it => it.quantity * it.unit_price)).sum

/-- The claims' per-line discount: `quantity*unit_price*discount_value/100`
for a percentage discount, `discount_value` for a fixed discount, `0`
otherwise. -/
def claimLineDiscount (it : InvoiceItemInput) : Money :=
  match it.discount_type with
  | some .percentage => it.quantity * it.unit_price * it.discount_value.getD 0 / 100
  | some .fixed => it.discount_value.getD 0
  | none => 0

/-- The claims' per-line tax:
`(quantity*unit_price - item_discount_amount) * tax_rate / 100`. -/
def claimLineTax (it : InvoiceItemInput) : Money :=
  (it.quantity * it.unit_price - claimLineDiscount it) * it.tax_rate.getD 0 / 100

/-- The claims' document tax: the sum of the per-line tax amounts. -/
def claimTaxAmount (items : List InvoiceItemInput) : Money :=
  (items.map claimLineTax).sum

/-- The claims' document discount: `subtotal*discount_value/100` for a
percentage discount, `discount_value` for a fixed discount, `0` when no
discount is given. -/
def claimDocumentDiscount (input : CreateInvoiceInput) (subtotal : Money) :
    Money :=
  match input.discount_type with
  | some .percentage => subtotal * input.discount_value.getD 0 / 100
  | some .fixed => input.discount_value.getD 0
  | none => 0

/-- The claims' per persisted row discount formula, read off the stored
columns. -/
def claimRowDiscount (row : InvoiceItemRow) : Money :=
  match row.discount_type with
  | some .percentage => row.quantity * row.unit_price * row.discount_value / 100
  | some .fixed => row.discount_value
  | none => 0

/-- Rounding to 2 decimal places, as the claims' "rounded to 2 decimal
places" (round to the nearest cent). -/
def round2 (q : Money) : Money := (round (q * 100) : ℤ) / 100

/-! ## Concrete fixtures for witnesses and counterexamples -/

/-- A fixed evaluation instant. -/
def now0 : PyDateTime :=
  { year := 2026, month := 10, day := 12, hour := 9, minute := 30
    second := 0, microsecond := 0 }

/-- A FREE-plan user with an active stored status. -/
def user0 : UserRow :=
  { id := "u1", subscriptionPlan := .free, subscriptionStatus := .active }

/-- The user's business, counter at 1. -/
def biz0 : BusinessRow :=
  { id := "b1", user_id := "u1", currency := "USD", invoicePrefix := "INV"
    next_invoice_number := 1, is_active := true }

/-- Base store: one user, one business, nothing else. -/
def db0 : DBState :=
  { users := [user0], businesses := [biz0], clients := [], plans := []
    subscriptions := [], invoices := [], invoice_items := [], payments := [] }

/-- One line item: quantity 1 at 1.11 with 15% tax — its tax amount 0.1665
has four decimal places. -/
def item0 : InvoiceItemInput :=
  { description := "Widget", quantity := 1, unit_price := 111/100
    tax_rate := some 15 }

/-- A creation request for that single line item. -/
def input0 : CreateInvoiceInput :=
  { business_id := "b1", client_id := "c1"
    invoice_date := { year := 2026, month := 10, day := 12 }
    due_date := { year := 2026, month := 11, day := 11 }
    payment_terms := "net_30", items := [item0] }

/-- The same request with the due date before the invoice date. -/
def input9 : CreateInvoiceInput :=
  { input0 with due_date := { year := 2026, month := 9, day := 1 } }

/-- The concrete creation run used by several counterexamples. -/
def run0 : DBState × Except PyErr Unit :=
  create_invoice db0 (some user0) input0 "inv1" (fun _ => "it1") now0

/-- A persisted invoice fixture: total 220, nothing paid, status `sent`. -/
def invFix : InvoiceRow :=
  { id := "inv1", business_id := "b1", client_id := "c1"
    invoice_number := "INV-00001", reference_number := none
    purchase_order_number := none, status := .sent
    invoice_date := { year := 2026, month := 10, day := 1 }
    due_date := { year := 2026, month := 10, day := 31 }
    payment_terms := "net_30", subtotal := 200, discount_type := none
    discount_value := 0, discount_amount := 0, tax_amount := 20
    shipping_amount := 0, total_amount := 220, amount_paid := 0
    amount_due := 220, currency := "USD", notes := none
    payment_instructions := none, footer_text := none, is_recurring := false
    sent_at := some now0, viewed_at := none, paid_at := none
    cancelled_at := none, created_by := "u1", created_at := now0
    updated_at := now0 }

/-- The fixture invoice in the `paid` state. -/
def invPaid : InvoiceRow :=
  { invFix with status := .paid, amount_paid := 220, amount_due := 0
                paid_at := some now0 }

/-- Store holding the unpaid fixture invoice. -/
def dbInv : DBState := { db0 with invoices := [invFix] }

/-- Store holding the paid fixture invoice. -/
def dbPaid : DBState := { db0 with invoices := [invPaid] }

/-- A completed 50-unit payment against the fixture invoice. -/
def payFix : PaymentRow :=
  { id := "pay1", invoice_id := "inv1", payment_number := "PAY-1"
    payment_date := { year := 2026, month := 10, day := 5 }, amount := 50
    payment_method := "cash", transaction_id := none
    reference_number := none, notes := none, status := .completed
    created_by := "u1", created_at := now0, updated_at := now0 }

/-- The fixture invoice with 50 already paid. -/
def invHalf : InvoiceRow :=
  { invFix with amount_paid := 50, amount_due := 170 }

/-- Store holding the fixture invoice with 50 already paid. -/
def dbPay : DBState :=
  { db0 with invoices := [invHalf], payments := [payFix] }

/-- A full payment of the fixture invoice's 220 total. -/
def payInput0 : CreatePaymentInput :=
  { invoice_id := "inv1"
    payment_date := { year := 2026, month := 10, day := 10 }
    amount := 220, payment_method := .cash }

/-- An amendment setting the fixture payment's amount to 100. -/
def updInput0 : UpdatePaymentInput := { amount := some 100 }

/-- Store with five fixture invoices created in the current month. -/
def dbFive : DBState := { db0 with invoices := List.replicate 5 invFix }

/-- Store with four fixture invoices created in the current month. -/
def dbFour : DBState := { db0 with invoices := List.replicate 4 invFix }

/-- A PRO billing plan row with NULL (unlimited) monthly invoices. -/
def planPro : BillingPlanRow :=
  { id := "p1", plan_type := .pro, max_invoices_per_month := none
    max_businesses := some 5
    features := ["custom_branding", "reminders", "recurring_invoices",
                 "advanced_reporting"] }

/-- A canceled subscription of `user0` to the PRO plan. -/
def subCanceled : SubscriptionRow :=
  { id := "s1", user_id := "u1", plan_id := "p1", status := .canceled }

/-- Store where `user0` (stored plan FREE) has a canceled PRO
subscription. -/
def dbC8 : DBState :=
  { db0 with users := [user0], plans := [planPro]
             subscriptions := [subCanceled] }

/-- A client fixture for the listing round trip. -/
def clientFix : ClientRow :=
  { id := "c1", business_id := "b1", client_type := .company
    company_name := some "Acme", first_name := none, last_name := none
    email := "acme@example.com", phone := none, mobile := none
    website := none, tax_id := none, vat_number := none
    payment_terms := some "net_30", credit_limit := some 1000
    currency := "USD", language := "en", notes := none, status := .active
    created_at := { year := 2025, month := 3, day := 2 }
    updated_at := { year := 2026, month := 1, day := 15 } }

/-- Validity of an optional timestamp field. -/
def OptDTOk : Option PyDateTime → Prop
  | Option.none => True
  | some t => ValidDateTime t

instance (o : Option PyDateTime) : Decidable (OptDTOk o) := by
  cases o
  · exact isTrue trivial
  · unfold OptDTOk
    infer_instance

/-- Validity of the optional nested client's two date columns. -/
def ClientDatesOk : Option ClientRow → Prop
  | Option.none => True
  | some c => ValidDate c.created_at ∧ ValidDate c.updated_at

instance (o : Option ClientRow) : Decidable (ClientDatesOk o) := by
  cases o
  · exact isTrue trivial
  · unfold ClientDatesOk
    infer_instance

/-- Date-validity of the serialized fields of one listing entry. -/
def ViewDatesOk (p : InvoiceRow × Option ClientRow) : Prop :=
  ValidDate p.1.invoice_date ∧ ValidDate p.1.due_date
    ∧ OptDTOk p.1.sent_at ∧ OptDTOk p.1.viewed_at ∧ OptDTOk p.1.paid_at
    ∧ OptDTOk p.1.cancelled_at
    ∧ ValidDateTime p.1.created_at ∧ ValidDateTime p.1.updated_at
    ∧ ClientDatesOk p.2

instance (p : InvoiceRow × Option ClientRow) : Decidable (ViewDatesOk p) := by
  unfold ViewDatesOk
  infer_instance

/-- A date-field value as it occurs in a fresh view (never an enum): absent,
a valid date, or a valid timestamp. -/
def DateFieldOk (v : PyScalar) : Prop :=
  v = .none ∨ (∃ d, v = .date d ∧ ValidDate d)
    ∨ (∃ t, v = .datetime t ∧ ValidDateTime t)

/-! ## Supporting lemmas -/

theorem charDigit_digitChar (k : Nat) (h : k ≤ 9) :
    charDigit? (digitChar k) = some k := by
  interval_cases k <;> decide

theorem digitChar_beq_T (k : Nat) : (digitChar k == 'T') = false := by
  unfold digitChar
  split <;> rfl

theorem parse2_digits (n : Nat) (h : n ≤ 99) :
    parse2 (digitChar (n / 10)) (digitChar (n % 10)) = some n := by
  rw [parse2, charDigit_digitChar _ (by omega), charDigit_digitChar _ (by omega)]
  simp only [Option.some.injEq]
  omega

theorem parse4_digits (n : Nat) (h : n ≤ 9999) :
    parse4 (digitChar (n / 1000)) (digitChar (n / 100 % 10))
      (digitChar (n / 10 % 10)) (digitChar (n % 10)) = some n := by
  rw [parse4, charDigit_digitChar _ (by omega), charDigit_digitChar _ (by omega),
    charDigit_digitChar _ (by omega), charDigit_digitChar _ (by omega)]
  simp only [Option.some.injEq]
  omega

theorem parse6_digits (n : Nat) (h : n ≤ 999999) :
    parse6 (digitChar (n / 100000)) (digitChar (n / 10000 % 10))
      (digitChar (n / 1000 % 10)) (digitChar (n / 100 % 10))
      (digitChar (n / 10 % 10)) (digitChar (n % 10)) = some n := by
  rw [parse6, charDigit_digitChar _ (by omega), charDigit_digitChar _ (by omega),
    charDigit_digitChar _ (by omega), charDigit_digitChar _ (by omega),
    charDigit_digitChar _ (by omega), charDigit_digitChar _ (by omega)]
  simp only [Option.some.injEq]
  omega

theorem isoDate_no_T (d : PyDate) : containsT (isoDate d) = false := by
  simp [containsT, isoDate, isoDateChars, pad4c, pad2c, digitChar_beq_T]

theorem isoDateTime_has_T (t : PyDateTime) : containsT (isoDateTime t) = true := by
  by_cases h : t.microsecond = 0 <;>
    simp [containsT, isoDateTime, isoDateTimeChars, pad4c, pad2c, pad6c, h]

theorem parseIsoDate_isoDate (d : PyDate) (h : ValidDate d) :
    parseIsoDate (isoDate d) = some d := by
  obtain ⟨hy, hm1, hm2, hd1, hd2⟩ := h
  show parseIsoDate ⟨isoDateChars d⟩ = some d
  rw [isoDateChars, pad4c, pad2c, pad2c]
  rw [show parseIsoDate = fun s => parseIsoDate s from rfl]
  simp only [parseIsoDate, List.cons_append, List.nil_append]
  rw [parse4_digits _ (by omega), parse2_digits _ (by omega),
    parse2_digits _ (by omega)]
  simp only []
  rw [if_pos ⟨hm1, hm2, hd1, hd2⟩]

theorem parseIsoDateTime_isoDateTime (t : PyDateTime) (h : ValidDateTime t) :
    parseIsoDateTime (isoDateTime t) = some t := by
  obtain ⟨hy, hm1, hm2, hd1, hd2, hh, hmi, hs, hu⟩ := h
  show parseIsoDateTime ⟨isoDateTimeChars t⟩ = some t
  by_cases hz : t.microsecond = 0
  · rw [isoDateTimeChars, pad4c, pad2c, pad2c, pad2c, pad2c, pad2c, if_pos hz]
    simp only [parseIsoDateTime, List.cons_append, List.nil_append,
      List.append_nil]
    rw [parse4_digits _ (by omega), parse2_digits _ (by omega),
      parse2_digits _ (by omega), parse2_digits _ (by omega),
      parse2_digits _ (by omega), parse2_digits _ (by omega)]
    simp only []
    rw [if_pos ⟨hm1, hm2, hd1, hd2, hh, hmi, hs⟩]
    simp only [Option.some.injEq]
    cases t
    simp_all
  · rw [isoDateTimeChars, pad4c, pad2c, pad2c, pad2c, pad2c, pad2c, pad6c,
      if_neg hz]
    simp only [parseIsoDateTime, List.cons_append, List.nil_append,
      List.append_nil]
    rw [parse4_digits _ (by omega), parse2_digits _ (by omega),
      parse2_digits _ (by omega), parse2_digits _ (by omega),
      parse2_digits _ (by omega), parse2_digits _ (by omega),
      parse6_digits _ (by omega)]
    simp only []
    rw [if_pos ⟨hm1, hm2, hd1, hd2, hh, hmi, hs⟩]

theorem isoDate_ne_empty (d : PyDate) : isoDate d ≠ "" := by
  intro h
  have h2 : (isoDate d).data = ("" : String).data := by rw [h]
  simp [isoDate, isoDateChars, pad4c] at h2

theorem isoDateTime_ne_empty (t : PyDateTime) : isoDateTime t ≠ "" := by
  intro h
  have h2 : (isoDateTime t).data = ("" : String).data := by rw [h]
  simp [isoDateTime, isoDateTimeChars, pad4c] at h2

/-- A serialized valid date field parses back to the same date. -/
theorem parseDateField_date (d : PyDate) (hd : ValidDate d) :
    parseDateFieldValue (.scalar (dumpLoadScalar (.date d)))
      = .scalar (.date d) := by
  simp only [dumpLoadScalar, parseDateFieldValue, ne_eq, isoDate_ne_empty d,
    not_false_iff, if_true, isoDate_no_T, Bool.false_eq_true, if_false,
    parseIsoDate_isoDate d hd]

/-- A serialized valid datetime field parses back to the same timestamp. -/
theorem parseDateField_datetime (t : PyDateTime) (ht : ValidDateTime t) :
    parseDateFieldValue (.scalar (dumpLoadScalar (.datetime t)))
      = .scalar (.datetime t) := by
  simp only [dumpLoadScalar, parseDateFieldValue, ne_eq,
    isoDateTime_ne_empty t, not_false_iff, if_true, isoDateTime_has_T,
    if_true, parseIsoDateTime_isoDateTime t ht]

/-- A serialized optional valid timestamp parses back unchanged. -/
theorem parseDateField_optDT (o : Option PyDateTime) (ho : OptDTOk o) :
    parseDateFieldValue (.scalar (dumpLoadScalar (optDateTime o)))
      = .scalar (optDateTime o) := by
  cases o with
  | none => rfl
  | some t => exact parseDateField_datetime t ho

/-- A serialized valid client date parses back to the same date. -/
theorem parseClientDate_date (d : PyDate) (hd : ValidDate d) :
    parseClientDateValue (dumpLoadScalar (.date d)) = .date d := by
  simp only [dumpLoadScalar, parseClientDateValue, ne_eq, isoDate_ne_empty d,
    not_false_iff, if_true, isoDate_no_T, Bool.false_eq_true, if_false,
    parseIsoDate_isoDate d hd]

theorem dumpLoadScalar_none : dumpLoadScalar .none = .none := rfl

theorem dumpLoadScalar_str (s : String) : dumpLoadScalar (.str s) = .str s :=
  rfl

theorem dumpLoadScalar_num (q : ℚ) : dumpLoadScalar (.num q) = .num q := rfl

theorem dumpLoadScalar_bool (b : Bool) :
    dumpLoadScalar (.boolean b) = .boolean b := rfl

theorem dumpLoadScalar_enum (c v : String) :
    dumpLoadScalar (.enum c v) = .str v := rfl

theorem dumpLoadScalar_optStr (o : Option String) :
    dumpLoadScalar (optStr o) = optStr o := by cases o <;> rfl

theorem dumpLoadScalar_optNum (o : Option Money) :
    dumpLoadScalar (optNum o) = optNum o := by cases o <;> rfl

theorem stripEnumScalar_none : stripEnumScalar .none = .none := rfl

theorem stripEnumScalar_str (s : String) :
    stripEnumScalar (.str s) = .str s := rfl

theorem stripEnumScalar_num (q : ℚ) : stripEnumScalar (.num q) = .num q :=
  rfl

theorem stripEnumScalar_bool (b : Bool) :
    stripEnumScalar (.boolean b) = .boolean b := rfl

theorem stripEnumScalar_date (d : PyDate) :
    stripEnumScalar (.date d) = .date d := rfl

theorem stripEnumScalar_datetime (t : PyDateTime) :
    stripEnumScalar (.datetime t) = .datetime t := rfl

theorem stripEnumScalar_enum (c v : String) :
    stripEnumScalar (.enum c v) = .str v := rfl

theorem stripEnumScalar_optStr (o : Option String) :
    stripEnumScalar (optStr o) = optStr o := by cases o <;> rfl

theorem stripEnumScalar_optNum (o : Option Money) :
    stripEnumScalar (optNum o) = optNum o := by cases o <;> rfl

theorem stripEnumScalar_optDateTime (o : Option PyDateTime) :
    stripEnumScalar (optDateTime o) = optDateTime o := by cases o <;> rfl

theorem dumpLoadScalar_optDiscount_strip (o : Option DiscountType) :
    dumpLoadScalar (optDiscount o) = stripEnumScalar (optDiscount o) := by
  cases o <;> rfl

set_option maxHeartbeats 3200000 in
/-- One listing entry survives the dump/load/parse pipeline exactly up to
the degradation of its enum members to value strings. -/
theorem view_roundtrip (inv : InvoiceRow) (cl : Option ClientRow)
    (h : ViewDatesOk (inv, cl)) :
    parseItemDates (dumpLoadDict (freshInvoiceView inv cl))
      = stripEnumView (freshInvoiceView inv cl) := by
  obtain ⟨h1, h2, h3, h4, h5, h6, h7, h8, hc⟩ := h
  cases cl with
  | none =>
    simp [freshInvoiceView, clientViewDict, dumpLoadDict, dumpLoadField,
      parseItemDates, date_fields, clientDateFields, dictGet, dictSet,
      stripEnumView, stripEnumField,
      dumpLoadScalar_none, dumpLoadScalar_str, dumpLoadScalar_num,
      dumpLoadScalar_bool, dumpLoadScalar_enum, dumpLoadScalar_optStr,
      dumpLoadScalar_optNum, dumpLoadScalar_optDiscount_strip,
      stripEnumScalar_none, stripEnumScalar_str, stripEnumScalar_num,
      stripEnumScalar_bool, stripEnumScalar_date, stripEnumScalar_datetime,
      stripEnumScalar_enum, stripEnumScalar_optStr, stripEnumScalar_optNum,
      stripEnumScalar_optDateTime,
      parseDateField_date _ h1, parseDateField_date _ h2,
      parseDateField_optDT _ h3, parseDateField_optDT _ h4,
      parseDateField_optDT _ h5, parseDateField_optDT _ h6,
      parseDateField_datetime _ h7, parseDateField_datetime _ h8]
  | some c =>
    obtain ⟨hc1, hc2⟩ := hc
    simp [freshInvoiceView, clientViewDict, dumpLoadDict, dumpLoadField,
      parseItemDates, date_fields, clientDateFields, dictGet, dictSet,
      stripEnumView, stripEnumField,
      dumpLoadScalar_none, dumpLoadScalar_str, dumpLoadScalar_num,
      dumpLoadScalar_bool, dumpLoadScalar_enum, dumpLoadScalar_optStr,
      dumpLoadScalar_optNum, dumpLoadScalar_optDiscount_strip,
      stripEnumScalar_none, stripEnumScalar_str, stripEnumScalar_num,
      stripEnumScalar_bool, stripEnumScalar_date, stripEnumScalar_datetime,
      stripEnumScalar_enum, stripEnumScalar_optStr, stripEnumScalar_optNum,
      stripEnumScalar_optDateTime,
      parseDateField_date _ h1, parseDateField_date _ h2,
      parseDateField_optDT _ h3, parseDateField_optDT _ h4,
      parseDateField_optDT _ h5, parseDateField_optDT _ h6,
      parseDateField_datetime _ h7, parseDateField_datetime _ h8,
      parseClientDate_date _ hc1, parseClientDate_date _ hc2]

/-- First match of a predicate that only inspects preserved parts commutes
with an element-wise update (used for the per-business counter bump). -/
theorem find?_map_of_pred_invariant {α : Type} (g : α → α)
    (p : α → Bool) (hp : ∀ x, p (g x) = p x) (l : List α) :
    (l.map g).find? p = (l.find? p).map g := by
  induction l with
  | nil => rfl
  | cons a l ih =>
    by_cases h : p a = true
    · simp [List.find?_cons, hp, h]
    · have hfa : p a = false := by simp [h]
      simp [List.find?_cons, hp, hfa, ih]

theorem createInvoiceUnresolvedName_eq :
    createInvoiceUnresolvedName = some "Client" := by decide

/-- The success path of `create_invoice` in one equation: when the quota
check passes and the ownership lookup succeeds, the returned store carries
the bumped counter, the new invoice row and its item rows — and the result
is the `NameError` on `Client`. -/
theorem create_invoice_success (db : DBState) (u : UserRow)
    (input : CreateInvoiceInput) (iid : String) (itemIds : Nat → String)
    (now : PyDateTime) (business : BusinessRow)
    (hq : can_create_invoice db input.business_id now = true)
    (hb : db.businesses.find?
      (fun b => b.id == input.business_id && b.user_id == u.id)
        = some business) :
    create_invoice db (some u) input iid itemIds now =
      ({ db with
          businesses := db.businesses.map (fun b =>
            if b.id == business.id then
              { b with next_invoice_number := b.next_invoice_number + 1 }
            else b)
          invoices := db.invoices ++ [builtInvoiceRow input business u.id iid
            (business.invoicePrefix ++ "-" ++ pad5 business.next_invoice_number)
            ((input.items.map lineSubtotal).sum)
            (documentDiscount input ((input.items.map lineSubtotal).sum))
            ((input.items.map lineTax).sum)
            ((input.items.map lineSubtotal).sum
              - documentDiscount input ((input.items.map lineSubtotal).sum)
              + (input.items.map lineTax).sum + input.shipping_amount.getD 0)
            now]
          invoice_items := db.invoice_items ++ input.items.enum.map
            (fun p => builtItemRow iid (itemIds p.1) p.1 p.2 now) },
       .error (.nameError "Client")) := by
  unfold create_invoice
  rw [hq]
  simp only [Bool.not_true, Bool.false_eq_true, if_false, hb,
    createInvoiceUnresolvedName_eq]

/-- The code's per-line discount agrees with the claims' formula. -/
theorem lineDiscount_eq_claim (it : InvoiceItemInput) :
    lineDiscount it = claimLineDiscount it := by
  unfold lineDiscount claimLineDiscount moneyTruthy lineSubtotal
  rcases hdt : it.discount_type with _ | dt
  · simp
  · rcases hdv : it.discount_value with _ | v
    · cases dt <;> simp
    · by_cases hv : v = 0
      · cases dt <;> simp [hv]
      · have : (v != 0) = true := by simp [hv]
        cases dt <;> simp [this] <;> ring

/-- The code's per-line tax agrees with the claims' formula. -/
theorem lineTax_eq_claim (it : InvoiceItemInput) :
    lineTax it = claimLineTax it := by
  unfold lineTax claimLineTax lineAfterDiscount lineSubtotal
  rw [lineDiscount_eq_claim]
  ring

/-- The code's document discount agrees with the claims' formula. -/
theorem documentDiscount_eq_claim (input : CreateInvoiceInput) (s : Money) :
    documentDiscount input s = claimDocumentDiscount input s := by
  unfold documentDiscount claimDocumentDiscount moneyTruthy
  rcases hdt : input.discount_type with _ | dt
  · simp
  · rcases hdv : input.discount_value with _ | v
    · cases dt <;> simp
    · by_cases hv : v = 0
      · cases dt <;> simp [hv]
      · have : (v != 0) = true := by simp [hv]
        cases dt <;> simp [this] <;> ring

/-- The code's item-loop subtotal sum is the claims' subtotal. -/
theorem sum_lineSubtotal_eq_claim (items : List InvoiceItemInput) :
    (items.map lineSubtotal).sum = claimSubtotal items := by
  unfold claimSubtotal lineSubtotal
  rfl

/-- The code's item-loop tax sum is the claims' tax total. -/
theorem sum_lineTax_eq_claim (items : List InvoiceItemInput) :
    (items.map lineTax).sum = claimTaxAmount items := by
  unfold claimTaxAmount
  congr 1
  exact List.map_congr_left (fun it _ => lineTax_eq_claim it)

/-- The claims' per-row discount formula evaluated on a persisted item row
coincides with the claims' per-input formula. -/
theorem claimRowDiscount_builtItemRow (iid itemId : String) (idx : Nat)
    (it : InvoiceItemInput) (now : PyDateTime) :
    claimRowDiscount (builtItemRow iid itemId idx it now) = claimLineDiscount it := by
  unfold claimRowDiscount claimLineDiscount builtItemRow
  cases it.discount_type with
  | none => rfl
  | some dt => cases dt <;> rfl

/-! ## Claim theorems -/

/-- C1 (counterexample): the persisted total of a concrete single-item
invoice (quantity 1 at 1.11, 15% tax) equals the claims' exact expression
`subtotal - document_discount + tax + shipping` — which differs from that
expression rounded to 2 decimal places, so the claimed equality with the
rounded value fails on this input. -/
theorem create_invoice_total_not_rounded_cex :
    run0.1.invoices.map InvoiceRow.total_amount =
      [claimSubtotal input0.items
        - claimDocumentDiscount input0 (claimSubtotal input0.items)
        + claimTaxAmount input0.items + input0.shipping_amount.getD 0]
    ∧ claimSubtotal input0.items
        - claimDocumentDiscount input0 (claimSubtotal input0.items)
        + claimTaxAmount input0.items + input0.shipping_amount.getD 0
      ≠ round2 (claimSubtotal input0.items
        - claimDocumentDiscount input0 (claimSubtotal input0.items)
        + claimTaxAmount input0.items + input0.shipping_amount.getD 0) := by
  have h := create_invoice_success db0 user0 input0 "inv1" (fun _ => "it1")
    now0 biz0 (by decide) (by decide)
  constructor
  · rw [show run0 = create_invoice db0 (some user0) input0 "inv1"
      (fun _ => "it1") now0 from rfl, h]
    simp [db0, builtInvoiceRow, sum_lineSubtotal_eq_claim,
      sum_lineTax_eq_claim, documentDiscount_eq_claim]
  · norm_num [claimSubtotal, claimTaxAmount, claimLineTax, claimLineDiscount,
      claimDocumentDiscount, input0, item0, round2, round_eq]

/-- C1 (amended): for every invoice-creation request passing the quota and
ownership checks, the persisted invoice satisfies `total_amount = subtotal -
document_discount_amount + tax_amount + shipping_amount` exactly — no
rounding is applied at any point — with subtotal, per-line taxes and document
discount computed as the claim states them. -/
theorem create_invoice_total_amount_exact (db : DBState) (u : UserRow)
    (input : CreateInvoiceInput) (iid : String) (itemIds : Nat → String)
    (now : PyDateTime) (business : BusinessRow)
    (hq : can_create_invoice db input.business_id now = true)
    (hb : db.businesses.find?
      (fun b => b.id == input.business_id && b.user_id == u.id)
        = some business) :
    ∃ inv : InvoiceRow,
      (create_invoice db (some u) input iid itemIds now).1.invoices
          = db.invoices ++ [inv]
        ∧ inv.total_amount = claimSubtotal input.items
            - claimDocumentDiscount input (claimSubtotal input.items)
            + claimTaxAmount input.items + input.shipping_amount.getD 0 := by
  rw [create_invoice_success db u input iid itemIds now business hq hb]
  refine ⟨_, rfl, ?_⟩
  simp [builtInvoiceRow, sum_lineSubtotal_eq_claim, sum_lineTax_eq_claim,
    documentDiscount_eq_claim]

/-- C1 (witness): the amended total identity instantiated on the concrete
run. -/
theorem create_invoice_total_amount_exact_witness :
    ∃ inv : InvoiceRow,
      (create_invoice db0 (some user0) input0 "inv1" (fun _ => "it1")
          now0).1.invoices = db0.invoices ++ [inv]
        ∧ inv.total_amount = claimSubtotal input0.items
            - claimDocumentDiscount input0 (claimSubtotal input0.items)
            + claimTaxAmount input0.items + input0.shipping_amount.getD 0 :=
  create_invoice_total_amount_exact db0 user0 input0 "inv1" (fun _ => "it1")
    now0 biz0 (by decide) (by decide)

/-- C3: every `create_invoice` call that passes the quota and ownership
checks commits the invoice and its items (the store grows accordingly) and
then fails with the `NameError` on the unbound name `Client`, so the caller
never receives the created invoice although it was persisted. -/
theorem create_invoice_commits_then_raises (db : DBState) (u : UserRow)
    (input : CreateInvoiceInput) (iid : String) (itemIds : Nat → String)
    (now : PyDateTime) (business : BusinessRow)
    (hq : can_create_invoice db input.business_id now = true)
    (hb : db.businesses.find?
      (fun b => b.id == input.business_id && b.user_id == u.id)
        = some business) :
    (create_invoice db (some u) input iid itemIds now).2
        = .error (.nameError "Client")
      ∧ (create_invoice db (some u) input iid itemIds now).1.invoices.length
        = db.invoices.length + 1
      ∧ (create_invoice db (some u) input iid itemIds
          now).1.invoice_items.length
        = db.invoice_items.length + input.items.length := by
  rw [create_invoice_success db u input iid itemIds now business hq hb]
  refine ⟨rfl, by simp, by simp⟩

/-- C3 (witness): the commit-then-raise behaviour on the concrete run. -/
theorem create_invoice_commits_then_raises_witness :
    (create_invoice db0 (some user0) input0 "inv1" (fun _ => "it1") now0).2
        = .error (.nameError "Client")
      ∧ (create_invoice db0 (some user0) input0 "inv1" (fun _ => "it1")
          now0).1.invoices.length = db0.invoices.length + 1
      ∧ (create_invoice db0 (some user0) input0 "inv1" (fun _ => "it1")
          now0).1.invoice_items.length
        = db0.invoice_items.length + input0.items.length :=
  create_invoice_commits_then_raises db0 user0 input0 "inv1" (fun _ => "it1")
    now0 biz0 (by decide) (by decide)

/-- C6: every successful invoice creation persists an invoice numbered
`prefix ++ "-" ++ (counter zero-padded to 5 digits)`, in status DRAFT with
`amount_paid = 0` and `amount_due = total_amount`, and bumps the business's
`next_invoice_number` by exactly 1. -/
theorem create_invoice_number_and_initial_state (db : DBState) (u : UserRow)
    (input : CreateInvoiceInput) (iid : String) (itemIds : Nat → String)
    (now : PyDateTime) (business : BusinessRow)
    (hq : can_create_invoice db input.business_id now = true)
    (hb : db.businesses.find?
      (fun b => b.id == input.business_id && b.user_id == u.id)
        = some business)
    (hid : db.businesses.find? (fun b => b.id == input.business_id)
        = some business) :
    ∃ inv : InvoiceRow,
      (create_invoice db (some u) input iid itemIds now).1.invoices
          = db.invoices ++ [inv]
        ∧ inv.invoice_number
          = business.invoicePrefix ++ "-" ++ pad5 business.next_invoice_number
        ∧ inv.status = .draft
        ∧ inv.amount_paid = 0
        ∧ inv.amount_due = inv.total_amount
        ∧ (create_invoice db (some u) input iid itemIds
            now).1.businesses.find? (fun b => b.id == input.business_id)
          = some { business with
              next_invoice_number := business.next_invoice_number + 1 } := by
  rw [create_invoice_success db u input iid itemIds now business hq hb]
  refine ⟨_, rfl, rfl, rfl, rfl, rfl, ?_⟩
  rw [find?_map_of_pred_invariant
    (fun b => if b.id == business.id then
      { b with next_invoice_number := b.next_invoice_number + 1 } else b)
    (fun b => b.id == input.business_id)
    (fun x => by by_cases hx : (x.id == business.id) = true <;> simp [hx])
    db.businesses]
  rw [hid]
  simp

/-- C6 (witness): numbering and initial state on the concrete run
(`INV-00001`, counter 1 → 2). -/
theorem create_invoice_number_and_initial_state_witness :
    ∃ inv : InvoiceRow,
      (create_invoice db0 (some user0) input0 "inv1" (fun _ => "it1")
          now0).1.invoices = db0.invoices ++ [inv]
        ∧ inv.invoice_number
          = biz0.invoicePrefix ++ "-" ++ pad5 biz0.next_invoice_number
        ∧ inv.status = .draft
        ∧ inv.amount_paid = 0
        ∧ inv.amount_due = inv.total_amount
        ∧ (create_invoice db0 (some user0) input0 "inv1" (fun _ => "it1")
            now0).1.businesses.find? (fun b => b.id == input0.business_id)
          = some { biz0 with
              next_invoice_number := biz0.next_invoice_number + 1 } :=
  create_invoice_number_and_initial_state db0 user0 input0 "inv1"
    (fun _ => "it1") now0 biz0 (by decide) (by decide) (by decide)

/-- C7: every successful creation persists exactly the item rows built from
the line-item specs, and each such row satisfies `line_total =
(quantity*unit_price - item_discount_amount) + item_tax_amount` with
`item_tax_amount = (quantity*unit_price - item_discount_amount)*tax_rate/100`
and `item_discount_amount` given by the claims' percentage/fixed/none rule. -/
theorem invoice_item_line_total_identity (db : DBState) (u : UserRow)
    (input : CreateInvoiceInput) (iid : String) (itemIds : Nat → String)
    (now : PyDateTime) (business : BusinessRow)
    (hq : can_create_invoice db input.business_id now = true)
    (hb : db.businesses.find?
      (fun b => b.id == input.business_id && b.user_id == u.id)
        = some business) :
    (create_invoice db (some u) input iid itemIds now).1.invoice_items
        = db.invoice_items ++ input.items.enum.map
            (fun p => builtItemRow iid (itemIds p.1) p.1 p.2 now)
      ∧ ∀ (itemId : String) (idx : Nat) (it : InvoiceItemInput),
          (builtItemRow iid itemId idx it now).line_total
              = ((builtItemRow iid itemId idx it now).quantity
                  * (builtItemRow iid itemId idx it now).unit_price
                  - (builtItemRow iid itemId idx it now).discount_amount)
                + (builtItemRow iid itemId idx it now).tax_amount
            ∧ (builtItemRow iid itemId idx it now).tax_amount
              = ((builtItemRow iid itemId idx it now).quantity
                  * (builtItemRow iid itemId idx it now).unit_price
                  - (builtItemRow iid itemId idx it now).discount_amount)
                * (builtItemRow iid itemId idx it now).tax_rate / 100
            ∧ (builtItemRow iid itemId idx it now).discount_amount
              = claimRowDiscount (builtItemRow iid itemId idx it now) := by
  constructor
  · rw [create_invoice_success db u input iid itemIds now business hq hb]
  · intro itemId idx it
    refine ⟨?_, ?_, ?_⟩
    · simp [builtItemRow, lineTotalAmount, lineAfterDiscount, lineSubtotal]
    · simp only [builtItemRow, lineTax, lineAfterDiscount, lineSubtotal]
      ring
    · rw [claimRowDiscount_builtItemRow]
      simp [builtItemRow, lineDiscount_eq_claim]

/-- C7 (witness): the item identity on the concrete run. -/
theorem invoice_item_line_total_identity_witness :
    (create_invoice db0 (some user0) input0 "inv1" (fun _ => "it1")
        now0).1.invoice_items
      = db0.invoice_items ++ input0.items.enum.map
          (fun p => builtItemRow "inv1" ((fun _ => "it1") p.1) p.1 p.2 now0)
    ∧ ∀ (itemId : String) (idx : Nat) (it : InvoiceItemInput),
        (builtItemRow "inv1" itemId idx it now0).line_total
            = ((builtItemRow "inv1" itemId idx it now0).quantity
                * (builtItemRow "inv1" itemId idx it now0).unit_price
                - (builtItemRow "inv1" itemId idx it now0).discount_amount)
              + (builtItemRow "inv1" itemId idx it now0).tax_amount
          ∧ (builtItemRow "inv1" itemId idx it now0).tax_amount
            = ((builtItemRow "inv1" itemId idx it now0).quantity
                * (builtItemRow "inv1" itemId idx it now0).unit_price
                - (builtItemRow "inv1" itemId idx it now0).discount_amount)
              * (builtItemRow "inv1" itemId idx it now0).tax_rate / 100
          ∧ (builtItemRow "inv1" itemId idx it now0).discount_amount
            = claimRowDiscount (builtItemRow "inv1" itemId idx it now0) :=
  invoice_item_line_total_identity db0 user0 input0 "inv1" (fun _ => "it1")
    now0 biz0 (by decide) (by decide)

/-- C9 (counterexample): a concrete request whose due date (2026-09-01)
precedes its invoice date (2026-10-12) is not rejected: the invoice row is
written and the business counter is incremented. -/
theorem create_invoice_no_due_date_validation_cex :
    PyDate.before input9.due_date input9.invoice_date = true
      ∧ (create_invoice db0 (some user0) input9 "inv1" (fun _ => "it1")
          now0).1.invoices.length = 1
      ∧ (create_invoice db0 (some user0) input9 "inv1" (fun _ => "it1")
          now0).1.businesses.map
            (fun b => b.next_invoice_number) = [2] := by
  have h := create_invoice_success db0 user0 input9 "inv1" (fun _ => "it1")
    now0 biz0 (by decide) (by decide)
  refine ⟨by decide, ?_, ?_⟩ <;> rw [h] <;> simp [db0, biz0]

/-- C9 (amended): `create_invoice` performs no comparison of due date and
invoice date; a request whose due date precedes its invoice date passes the
same path as any other and is persisted with exactly the given dates. -/
theorem create_invoice_persists_inverted_dates (db : DBState) (u : UserRow)
    (input : CreateInvoiceInput) (iid : String) (itemIds : Nat → String)
    (now : PyDateTime) (business : BusinessRow)
    (hq : can_create_invoice db input.business_id now = true)
    (hb : db.businesses.find?
      (fun b => b.id == input.business_id && b.user_id == u.id)
        = some business)
    (_hdue : PyDate.before input.due_date input.invoice_date = true) :
    ∃ inv : InvoiceRow,
      (create_invoice db (some u) input iid itemIds now).1.invoices
          = db.invoices ++ [inv]
        ∧ inv.invoice_date = input.invoice_date
        ∧ inv.due_date = input.due_date := by
  rw [create_invoice_success db u input iid itemIds now business hq hb]
  exact ⟨_, rfl, rfl, rfl⟩

/-- C9 (witness): the inverted-dates request is persisted on the concrete
run. -/
theorem create_invoice_persists_inverted_dates_witness :
    ∃ inv : InvoiceRow,
      (create_invoice db0 (some user0) input9 "inv1" (fun _ => "it1")
          now0).1.invoices = db0.invoices ++ [inv]
        ∧ inv.invoice_date = input9.invoice_date
        ∧ inv.due_date = input9.due_date :=
  create_invoice_persists_inverted_dates db0 user0 input9 "inv1"
    (fun _ => "it1") now0 biz0 (by decide) (by decide) (by decide)

/-- C4: `can_create_invoice` returns false whenever the resolved subscription
status is neither ACTIVE nor TRIALING; otherwise, for a finite plan limit, it
returns true exactly when the count of the business's invoices created since
the first day of the current month is strictly below the limit (so a FREE
plan, limit 5, denies at a count of 5 and allows at 4). -/
theorem can_create_invoice_characterization :
    (∀ (db : DBState) (bid : String) (now : PyDateTime)
        (business : BusinessRow),
        db.businesses.find? (fun b => b.id == bid) = some business →
        resolvedStatus db business.user_id ≠ .active →
        resolvedStatus db business.user_id ≠ .trialing →
        can_create_invoice db bid now = false)
    ∧ (∀ (db : DBState) (bid : String) (now : PyDateTime)
        (business : BusinessRow) (limit : Nat),
        db.businesses.find? (fun b => b.id == bid) = some business →
        (resolvedStatus db business.user_id = .active
          ∨ resolvedStatus db business.user_id = .trialing) →
        (get_plan_limits db business.user_id).max_invoices_per_month
            = .fin limit →
        (can_create_invoice db bid now = true
          ↔ monthInvoiceCount db bid now < limit)) := by
  constructor
  · intro db bid now business hfind hna hnt
    unfold can_create_invoice
    rw [hfind]
    simp only []
    rw [if_pos ⟨hna, hnt⟩]
  · intro db bid now business limit hfind hst hlim
    unfold can_create_invoice
    rw [hfind]
    simp only []
    rw [if_neg (by tauto), hlim]
    simp

/-- C4 (witness): under a canceled subscription creation is denied; for a
FREE-plan business the decision is exactly the month-count comparison
against 5, instantiated at stores holding five and four current-month
invoices. -/
theorem can_create_invoice_characterization_witness :
    can_create_invoice dbC8 "b1" now0 = false
      ∧ (can_create_invoice dbFive "b1" now0 = true
          ↔ monthInvoiceCount dbFive "b1" now0 < 5)
      ∧ (can_create_invoice dbFour "b1" now0 = true
          ↔ monthInvoiceCount dbFour "b1" now0 < 5) :=
  ⟨can_create_invoice_characterization.1 dbC8 "b1" now0 biz0 (by decide)
      (by decide) (by decide),
   can_create_invoice_characterization.2 dbFive "b1" now0 biz0 5 (by decide)
      (Or.inl (by decide)) (by decide),
   can_create_invoice_characterization.2 dbFour "b1" now0 biz0 5 (by decide)
      (Or.inl (by decide)) (by decide)⟩

/-- C8 (counterexample): a user whose stored plan is FREE but who holds a
CANCELED subscription to the PRO plan receives the PRO plan's limits from
`get_plan_limits`, not the static FREE fallback — the status is never
consulted. -/
theorem get_plan_limits_ignores_status_cex :
    (get_active_subscription dbC8 "u1").map SubscriptionRow.status
        = some .canceled
      ∧ get_plan_limits dbC8 "u1"
        = { max_invoices_per_month := .inf, max_businesses := .fin 5
            features := planPro.features }
      ∧ get_plan_limits dbC8 "u1" ≠ PLAN_LIMITS user0.subscriptionPlan := by
  decide

/-- C8 (amended): `get_plan_limits` returns the subscription's plan limits
whenever a subscription row with a plan exists — regardless of the
subscription's status — and falls back to the static limits keyed by the
user's stored plan (defaulting to FREE) only when no subscription row
exists. -/
theorem get_plan_limits_characterization :
    (∀ (db : DBState) (uid : String) (s : SubscriptionRow)
        (plan : BillingPlanRow),
        get_active_subscription db uid = some s →
        subscriptionPlanRow db s = some plan →
        get_plan_limits db uid
          = { max_invoices_per_month := orInf plan.max_invoices_per_month
              max_businesses := orInf plan.max_businesses
              features := plan.features })
    ∧ (∀ (db : DBState) (uid : String),
        get_active_subscription db uid = none →
        get_plan_limits db uid
          = match db.users.find? (fun u => u.id == uid) with
            | some u => PLAN_LIMITS u.subscriptionPlan
            | none => PLAN_LIMITS .free) := by
  constructor
  · intro db uid s plan hs hp
    unfold get_plan_limits
    rw [hs]
    simp only [hp]
  · intro db uid hs
    unfold get_plan_limits
    rw [hs]

/-- C8 (witness): the characterization instantiated at the canceled-PRO
store and at the subscription-free base store. -/
theorem get_plan_limits_characterization_witness :
    get_plan_limits dbC8 "u1"
        = { max_invoices_per_month := orInf planPro.max_invoices_per_month
            max_businesses := orInf planPro.max_businesses
            features := planPro.features }
      ∧ get_plan_limits db0 "u1"
        = match db0.users.find? (fun u => u.id == "u1") with
          | some u => PLAN_LIMITS u.subscriptionPlan
          | none => PLAN_LIMITS .free :=
  ⟨get_plan_limits_characterization.1 dbC8 "u1" subCanceled planPro
      (by decide) (by decide),
   get_plan_limits_characterization.2 db0 "u1" (by decide)⟩

theorem putInvoice_mem (db : DBState) (inv r : InvoiceRow)
    (hmem : inv ∈ db.invoices) (hid : r.id = inv.id) :
    r ∈ (putInvoice db r).invoices := by
  unfold putInvoice
  refine List.mem_map.mpr ⟨inv, hmem, ?_⟩
  rw [hid]
  simp

/-- Field equations for the invoice update performed by `create_payment`. -/
theorem applyPaymentToInvoice_fields (inv : InvoiceRow) (amount : Money)
    (now : PyDateTime) :
    (applyPaymentToInvoice inv amount now).id = inv.id
    ∧ (applyPaymentToInvoice inv amount now).total_amount = inv.total_amount
    ∧ (applyPaymentToInvoice inv amount now).amount_paid
        = inv.amount_paid + amount
    ∧ (applyPaymentToInvoice inv amount now).amount_due
        = inv.total_amount - (inv.amount_paid + amount)
    ∧ (inv.total_amount - (inv.amount_paid + amount) ≤ 0 →
        (applyPaymentToInvoice inv amount now).status = .paid
        ∧ (applyPaymentToInvoice inv amount now).paid_at = some now)
    ∧ (¬ inv.total_amount - (inv.amount_paid + amount) ≤ 0 →
        (applyPaymentToInvoice inv amount now).status = inv.status
        ∧ (applyPaymentToInvoice inv amount now).paid_at = inv.paid_at) := by
  by_cases h : inv.total_amount - (inv.amount_paid + amount) ≤ 0 <;>
    simp [applyPaymentToInvoice, h]

/-- Field equations for the invoice update performed by `update_payment`
when the amount changes. -/
theorem amendPaymentOnInvoice_fields (inv : InvoiceRow) (oldA na : Money)
    (now : PyDateTime) :
    (amendPaymentOnInvoice inv oldA na now).id = inv.id
    ∧ (amendPaymentOnInvoice inv oldA na now).total_amount = inv.total_amount
    ∧ (amendPaymentOnInvoice inv oldA na now).amount_paid
        = inv.amount_paid - oldA + na
    ∧ (amendPaymentOnInvoice inv oldA na now).amount_due
        = inv.total_amount - (inv.amount_paid - oldA + na)
    ∧ (inv.total_amount - (inv.amount_paid - oldA + na) ≤ 0 →
        (amendPaymentOnInvoice inv oldA na now).status = .paid
        ∧ (amendPaymentOnInvoice inv oldA na now).paid_at = some now)
    ∧ (¬ inv.total_amount - (inv.amount_paid - oldA + na) ≤ 0 →
        inv.status = .paid →
        (amendPaymentOnInvoice inv oldA na now).status = .sent
        ∧ (amendPaymentOnInvoice inv oldA na now).paid_at = none) := by
  by_cases h1 : inv.total_amount - (inv.amount_paid - oldA + na) ≤ 0
  · simp [amendPaymentOnInvoice, h1]
  · by_cases h2 : inv.status = .paid <;>
      simp [amendPaymentOnInvoice, h1, h2]

/-- Field equations for the invoice update performed by `delete_payment`. -/
theorem removePaymentFromInvoice_fields (inv : InvoiceRow) (amount : Money)
    (now : PyDateTime) :
    (removePaymentFromInvoice inv amount now).id = inv.id
    ∧ (removePaymentFromInvoice inv amount now).total_amount
        = inv.total_amount
    ∧ (removePaymentFromInvoice inv amount now).amount_paid
        = inv.amount_paid - amount
    ∧ (removePaymentFromInvoice inv amount now).amount_due
        = inv.total_amount - (inv.amount_paid - amount)
    ∧ (inv.status = .paid →
        (removePaymentFromInvoice inv amount now).status = .sent
        ∧ (removePaymentFromInvoice inv amount now).paid_at = none) := by
  by_cases h : inv.status = .paid <;> simp [removePaymentFromInvoice, h]

/-- C2: after each payment operation the affected invoice satisfies
`amount_due = total_amount - amount_paid`; `create_payment` marks the
invoice PAID and stamps `paid_at` exactly when the recomputed due is `<= 0`
(and leaves status and `paid_at` untouched otherwise); `update_payment`
with a changed amount reverts a PAID invoice to SENT and clears `paid_at`
whenever the recomputed due is `> 0`; `delete_payment` subtracts the
removed amount under the same recompute. -/
theorem payment_operations_reconcile :
    (∀ (db : DBState) (u : UserRow) (input : CreatePaymentInput)
        (pid pnum : String) (now : PyDateTime) (inv : InvoiceRow),
        ownedInvoice db u.id input.invoice_id = some inv →
        ∃ inv2 : InvoiceRow,
          inv2 = applyPaymentToInvoice inv input.amount now
          ∧ inv2 ∈ (create_payment db (some u) input pid pnum now).1.invoices
          ∧ inv2.amount_due = inv2.total_amount - inv2.amount_paid
          ∧ inv2.amount_paid = inv.amount_paid + input.amount
          ∧ (inv2.amount_due ≤ 0 →
              inv2.status = .paid ∧ inv2.paid_at = some now)
          ∧ (0 < inv2.amount_due →
              inv2.status = inv.status ∧ inv2.paid_at = inv.paid_at))
    ∧ (∀ (db : DBState) (u : UserRow) (pid : String)
        (input : UpdatePaymentInput) (now : PyDateTime)
        (payment : PaymentRow) (na : Money) (inv : InvoiceRow),
        ownedPayment db u.id pid = some payment →
        input.amount = some na →
        na ≠ payment.amount →
        db.invoices.find? (fun i => i.id == payment.invoice_id) = some inv →
        ∃ inv2 : InvoiceRow,
          inv2 = amendPaymentOnInvoice inv payment.amount na now
          ∧ inv2 ∈ (update_payment db (some u) pid input now).1.invoices
          ∧ inv2.amount_due = inv2.total_amount - inv2.amount_paid
          ∧ inv2.amount_paid = inv.amount_paid - payment.amount + na
          ∧ (inv2.amount_due ≤ 0 →
              inv2.status = .paid ∧ inv2.paid_at = some now)
          ∧ (0 < inv2.amount_due → inv.status = .paid →
              inv2.status = .sent ∧ inv2.paid_at = none))
    ∧ (∀ (db : DBState) (u : UserRow) (pid : String) (now : PyDateTime)
        (payment : PaymentRow) (inv : InvoiceRow),
        ownedPayment db u.id pid = some payment →
        db.invoices.find? (fun i => i.id == payment.invoice_id) = some inv →
        ∃ inv2 : InvoiceRow,
          inv2 = removePaymentFromInvoice inv payment.amount now
          ∧ inv2 ∈ (delete_payment db (some u) pid now).1.invoices
          ∧ inv2.amount_due = inv2.total_amount - inv2.amount_paid
          ∧ inv2.amount_paid = inv.amount_paid - payment.amount) := by
  refine ⟨?_, ?_, ?_⟩
  · intro db u input pid pnum now inv hinv
    have hmem : inv ∈ db.invoices := by
      unfold ownedInvoice at hinv
      exact List.mem_of_find?_eq_some hinv
    obtain ⟨hid, htot, hpaid, hdue, hple, hpgt⟩ :=
      applyPaymentToInvoice_fields inv input.amount now
    refine ⟨applyPaymentToInvoice inv input.amount now, rfl, ?_, ?_, hpaid,
      ?_, ?_⟩
    · simp only [create_payment, hinv]
      exact putInvoice_mem _ inv _ hmem hid
    · rw [hdue, hpaid, htot]
    · intro hle
      rw [hdue] at hle
      exact hple hle
    · intro hgt
      rw [hdue] at hgt
      exact hpgt (by linarith)
  · intro db u pid input now payment na inv hpay ha hne hfind
    have hinv2 : (some na).getD payment.amount = na := rfl
    obtain ⟨hid, htot, hpaid, hdue, hple, hpgt⟩ :=
      amendPaymentOnInvoice_fields inv payment.amount na now
    refine ⟨amendPaymentOnInvoice inv payment.amount na now, rfl, ?_, ?_,
      hpaid, ?_, ?_⟩
    · have hmem : inv ∈ db.invoices := List.mem_of_find?_eq_some hfind
      simp only [update_payment, hpay, ha, Option.getD_some, Option.isSome_some,
        ne_eq, Option.some.injEq, hne, not_false_iff, and_true, if_true,
        true_and, hfind, putPayment]
      exact putInvoice_mem _ inv _ hmem hid
    · rw [hdue, hpaid, htot]
    · intro hle
      rw [hdue] at hle
      exact hple hle
    · intro hgt
      rw [hdue] at hgt
      exact hpgt (by linarith)
  · intro db u pid now payment inv hpay hfind
    have hmem : inv ∈ db.invoices := List.mem_of_find?_eq_some hfind
    obtain ⟨hid, htot, hpaid, hdue, _⟩ :=
      removePaymentFromInvoice_fields inv payment.amount now
    refine ⟨removePaymentFromInvoice inv payment.amount now, rfl, ?_, ?_,
      hpaid⟩
    · simp only [delete_payment, hpay, hfind]
      exact putInvoice_mem _ inv _ hmem hid
    · rw [hdue, hpaid, htot]

/-- C2 (witness): the three reconciliation statements instantiated — a full
220 payment on the unpaid fixture invoice, an amount amendment 50 → 100 on
the half-paid store, and the deletion of the 50 payment. -/
theorem payment_operations_reconcile_witness :
    (∃ inv2 : InvoiceRow,
      inv2 = applyPaymentToInvoice invFix payInput0.amount now0
      ∧ inv2 ∈ (create_payment dbInv (some user0) payInput0 "pay9" "PAY-9"
          now0).1.invoices
      ∧ inv2.amount_due = inv2.total_amount - inv2.amount_paid
      ∧ inv2.amount_paid = invFix.amount_paid + payInput0.amount
      ∧ (inv2.amount_due ≤ 0 →
          inv2.status = .paid ∧ inv2.paid_at = some now0)
      ∧ (0 < inv2.amount_due →
          inv2.status = invFix.status ∧ inv2.paid_at = invFix.paid_at))
    ∧ (∃ inv2 : InvoiceRow,
      inv2 = amendPaymentOnInvoice invHalf payFix.amount 100 now0
      ∧ inv2 ∈ (update_payment dbPay (some user0) "pay1" updInput0
          now0).1.invoices
      ∧ inv2.amount_due = inv2.total_amount - inv2.amount_paid
      ∧ inv2.amount_paid = invHalf.amount_paid - payFix.amount + 100
      ∧ (inv2.amount_due ≤ 0 →
          inv2.status = .paid ∧ inv2.paid_at = some now0)
      ∧ (0 < inv2.amount_due → invHalf.status = .paid →
          inv2.status = .sent ∧ inv2.paid_at = none))
    ∧ (∃ inv2 : InvoiceRow,
      inv2 = removePaymentFromInvoice invHalf payFix.amount now0
      ∧ inv2 ∈ (delete_payment dbPay (some user0) "pay1" now0).1.invoices
      ∧ inv2.amount_due = inv2.total_amount - inv2.amount_paid
      ∧ inv2.amount_paid = invHalf.amount_paid - payFix.amount) :=
  ⟨payment_operations_reconcile.1 dbInv user0 payInput0 "pay9" "PAY-9" now0
      invFix (by decide),
   payment_operations_reconcile.2.1 dbPay user0 "pay1" updInput0 now0 payFix
      100 invHalf (by decide) (by decide) (by decide) (by decide),
   payment_operations_reconcile.2.2 dbPay user0 "pay1" now0 payFix invHalf
      (by decide) (by decide)⟩

/-- C10 (counterexample): `update_invoice` moves a PAID invoice straight
back to DRAFT — a backward transition the claim rules out. -/
theorem invoice_status_backward_transition_cex :
    dbPaid.invoices.map InvoiceRow.status = [.paid]
      ∧ (update_invoice dbPaid (some user0) "inv1"
          { status := some InvoiceStatus.draft } now0).1.invoices.map
            InvoiceRow.status = [.draft] := by
  constructor
  · rfl
  · simp only [update_invoice, show ownedInvoice dbPaid user0.id "inv1"
      = some invPaid from by decide, Option.getD_some]
    rfl

/-- C10 (amended): the status-changing operations carry no transition guard:
`update_invoice` installs any provided status whatever the current one (so a
PAID or CANCELLED invoice can return to DRAFT or SENT), `send_invoice`
always yields SENT, `mark_invoice_as_paid` always PAID and `cancel_invoice`
always CANCELLED. -/
theorem invoice_status_ops_unconditional :
    (∀ (db : DBState) (u : UserRow) (iid : String)
        (input : UpdateInvoiceInput) (now : PyDateTime) (inv : InvoiceRow)
        (s : InvoiceStatus),
        ownedInvoice db u.id iid = some inv → input.status = some s →
        ∃ inv2 ∈ (update_invoice db (some u) iid input now).1.invoices,
          inv2.id = inv.id ∧ inv2.status = s)
    ∧ (∀ (db : DBState) (u : UserRow) (iid : String) (now : PyDateTime)
        (inv : InvoiceRow),
        ownedInvoice db u.id iid = some inv →
        ∃ inv2 ∈ (send_invoice db (some u) iid now).1.invoices,
          inv2.id = inv.id ∧ inv2.status = .sent)
    ∧ (∀ (db : DBState) (u : UserRow) (iid : String) (now : PyDateTime)
        (inv : InvoiceRow),
        ownedInvoice db u.id iid = some inv →
        ∃ inv2 ∈ (mark_invoice_as_paid db (some u) iid now).1.invoices,
          inv2.id = inv.id ∧ inv2.status = .paid)
    ∧ (∀ (db : DBState) (u : UserRow) (iid : String) (now : PyDateTime)
        (inv : InvoiceRow),
        ownedInvoice db u.id iid = some inv →
        ∃ inv2 ∈ (cancel_invoice db (some u) iid now).1.invoices,
          inv2.id = inv.id ∧ inv2.status = .cancelled) := by
  have hmemOf : ∀ (db : DBState) (uid iid : String) (inv : InvoiceRow),
      ownedInvoice db uid iid = some inv → inv ∈ db.invoices := by
    intro db uid iid inv h
    unfold ownedInvoice at h
    exact List.mem_of_find?_eq_some h
  refine ⟨?_, ?_, ?_, ?_⟩
  · intro db u iid input now inv s hinv hs
    simp only [update_invoice, hinv, hs, Option.getD_some]
    exact ⟨_, putInvoice_mem _ inv _ (hmemOf db u.id iid inv hinv) rfl,
      rfl, rfl⟩
  · intro db u iid now inv hinv
    simp only [send_invoice, hinv]
    exact ⟨_, putInvoice_mem _ inv _ (hmemOf db u.id iid inv hinv) rfl,
      rfl, rfl⟩
  · intro db u iid now inv hinv
    simp only [mark_invoice_as_paid, hinv]
    exact ⟨_, putInvoice_mem _ inv _ (hmemOf db u.id iid inv hinv) rfl,
      rfl, rfl⟩
  · intro db u iid now inv hinv
    simp only [cancel_invoice, hinv]
    exact ⟨_, putInvoice_mem _ inv _ (hmemOf db u.id iid inv hinv) rfl,
      rfl, rfl⟩

/-- C10 (witness): the four unconditional overwrites instantiated on the
PAID fixture invoice — including the backward PAID → DRAFT move. -/
theorem invoice_status_ops_unconditional_witness :
    (∃ inv2 ∈ (update_invoice dbPaid (some user0) "inv1"
        { status := some InvoiceStatus.draft } now0).1.invoices,
      inv2.id = invPaid.id ∧ inv2.status = .draft)
    ∧ (∃ inv2 ∈ (send_invoice dbPaid (some user0) "inv1" now0).1.invoices,
        inv2.id = invPaid.id ∧ inv2.status = .sent)
    ∧ (∃ inv2 ∈ (mark_invoice_as_paid dbPaid (some user0) "inv1"
        now0).1.invoices, inv2.id = invPaid.id ∧ inv2.status = .paid)
    ∧ (∃ inv2 ∈ (cancel_invoice dbPaid (some user0) "inv1" now0).1.invoices,
        inv2.id = invPaid.id ∧ inv2.status = .cancelled) :=
  ⟨invoice_status_ops_unconditional.1 dbPaid user0 "inv1"
      { status := some InvoiceStatus.draft } now0 invPaid .draft (by decide)
      rfl,
   invoice_status_ops_unconditional.2.1 dbPaid user0 "inv1" now0 invPaid
      (by decide),
   invoice_status_ops_unconditional.2.2.1 dbPaid user0 "inv1" now0 invPaid
      (by decide),
   invoice_status_ops_unconditional.2.2.2 dbPaid user0 "inv1" now0 invPaid
      (by decide)⟩

/-- C5 (counterexample): the cache round trip of a concrete one-invoice
listing is not field-for-field identical to the fresh listing: the `status`
field comes back as the plain string value where the fresh view carries the
string-enum member (and likewise for the other enum-typed fields). -/
theorem cached_listing_not_identical_cex :
    cachedListingViews [freshInvoiceView invFix (some clientFix)]
        ≠ [freshInvoiceView invFix (some clientFix)]
      ∧ (cachedListingViews
          [freshInvoiceView invFix (some clientFix)]).map
            (fun d => dictGet d "status")
        = [some (.scalar (.str "sent"))]
      ∧ dictGet (freshInvoiceView invFix (some clientFix)) "status"
        = some (.scalar (.enum "InvoiceStatus" "sent")) := by
  decide

/-- C5 (amended): deserializing a cached listing yields, for every entry,
the fresh view with each enum member (invoice status, discount type, client
status, client type) replaced by its plain string value; every other field —
all date and datetime fields included — round-trips exactly, types
preserved. -/
theorem cached_listing_roundtrip
    (pairs : List (InvoiceRow × Option ClientRow))
    (h : ∀ p ∈ pairs, ViewDatesOk p) :
    cachedListingViews (pairs.map (fun p => freshInvoiceView p.1 p.2))
      = (pairs.map (fun p => freshInvoiceView p.1 p.2)).map stripEnumView := by
  induction pairs with
  | nil => rfl
  | cons p ps ih =>
    have hhead := view_roundtrip p.1 p.2 (h p (List.mem_cons_self p ps))
    have htail := ih (fun q hq => h q (List.mem_cons_of_mem p hq))
    simp only [cachedListingViews, parse_iso_dates, List.map_cons] at htail ⊢
    rw [hhead, htail]

/-- C5 (witness): the round trip up to enum degradation on the concrete
one-invoice listing. -/
theorem cached_listing_roundtrip_witness :
    cachedListingViews
        ([((invFix, some clientFix))].map (fun p => freshInvoiceView p.1 p.2))
      = ([((invFix, some clientFix))].map
          (fun p => freshInvoiceView p.1 p.2)).map stripEnumView :=
  cached_listing_roundtrip [(invFix, some clientFix)] (by decide)

end InvoiceGen
